import Mathlib

/-!
# Takwin: class, subject and grade routes

A shallow embedding of the Express route handlers of the repository
(`routes/classRoutes.js`, `routes/subjectRoutes.js`, `routes/gradeRoutes.js`)
over an explicit store state, followed by theorems about them.

Conventions of the embedding

* A handler `h` becomes a function `State → Actor → args → Response × State`; the
  `isTeacher` middleware in front of a route is the first test of the function.
* `req.user` (set by the `protect` middleware) is the `Actor`.
* A request-body field that may be absent is an `Option`; the JavaScript test
  `!x` holds of an absent field, of the number `0` and of the string `""`.
* Grades are rational numbers: the handlers only compare them with `0` and `100`.
* The five Sequelize tables are lists of rows, in insertion order.  The model files
  (`models/User.js`, `models/Class.js`, ...) are not among the sources; what the
  embedding takes from them is stated where it is used.
* An exception inside a handler (reading a property of `null`) ends in the
  `catch` block: status 500, store unchanged.
-/

namespace Takwin

/-! ## Data model -/

/-- Values of the `role` column of a user. -/
inductive Role where
  | student
  | teacher
  | admin
deriving DecidableEq, Repr

/-- Row of the `User` table (the password hash is not used by the modelled routes). -/
structure User where
  id : Nat
  name : String
  email : String
  role : Role
  isApproved : Bool
deriving DecidableEq, Repr

/-- Row of the `Class` table. -/
structure Class where
  id : Nat
  name : String
  description : Option String
  teacherId : Nat
deriving DecidableEq, Repr

/-- Row of the `StudentClass` join table: one enrollment. -/
structure StudentClass where
  studentId : Nat
  classId : Nat
deriving DecidableEq, Repr

/-- Row of the `Subject` table. -/
structure Subject where
  id : Nat
  name : String
  description : Option String
  classId : Nat
deriving DecidableEq, Repr

/-- Row of the `Grade` table. -/
structure Grade where
  id : Nat
  studentId : Nat
  subjectId : Nat
  grade : ℚ
  assignment : Option String
  comments : Option String
deriving DecidableEq

/-- Column values of a grade row before it has an id: one element of `gradeEntries`
in `POST /api/grades`. -/
structure GradeValues where
  studentId : Nat
  subjectId : Nat
  grade : ℚ
  assignment : Option String
  comments : Option String
deriving DecidableEq

/-- One element of the `grades` array in the body of `POST /api/grades`; an absent
or `null` field is `none`. -/
structure GradeEntry where
  studentId : Option Nat
  grade : Option ℚ
  assignment : Option String
  comments : Option String
deriving DecidableEq

/-- The store: the five tables and the auto-increment counters of the three tables
whose rows are created with a fresh id. -/
structure State where
  users : List User
  classes : List Class
  enrollments : List StudentClass
  subjects : List Subject
  grades : List Grade
  nextClassId : Nat
  nextSubjectId : Nat
  nextGradeId : Nat
deriving DecidableEq

/-- The authenticated caller, `req.user`. -/
structure Actor where
  id : Nat
  role : Role
deriving DecidableEq, Repr

/-- Data carried by a JSON response next to its message. -/
inductive Payload where
  | none
  | enrolledStudents (ids : List Nat)
  | cls (c : Class)
  | subject (s : Subject)
  | gradeEntries (gs : List GradeValues)
  | grade (g : Grade)
deriving DecidableEq

/-- HTTP response: status code, `message` field, and payload. -/
structure Response where
  status : Nat
  message : String
  payload : Payload
deriving DecidableEq

/-- Response of the `isTeacher` middleware when the role is not `teacher`. -/
def teacherRequired : Response :=
  ⟨403, "Access denied. Teacher role required.", Payload.none⟩

/-- Response of every `catch` block of the modelled routes. -/
def serverError : Response := ⟨500, "Server error", Payload.none⟩

/-! ## Store queries -/

/-- The query `Class.findByPk(classId)`. -/
def findClass (st : State) (classId : Nat) : Option Class :=
  st.classes.find? (fun c => c.id == classId)

/-- The query `Subject.findByPk(id)`. -/
def findSubject (st : State) (id : Nat) : Option Subject :=
  st.subjects.find? (fun s => s.id == id)

/-- The query `Grade.findByPk(id)`. -/
def findGrade (st : State) (id : Nat) : Option Grade :=
  st.grades.find? (fun g => g.id == id)

/-- The query `StudentClass.findOne` with `where: \x7b studentId, classId \x7d`, as a test. -/
def isEnrolled (st : State) (studentId classId : Nat) : Bool :=
  st.enrollments.any (fun e => e.studentId == studentId && e.classId == classId)

/-! ## routes/classRoutes.js -/

/-- Handler `POST /api/classes` (createClass), classRoutes.js lines 30-52. -/
def createClass (st : State) (actor : Actor) (name : Option String)
    (description : Option String) : Response × State :=
  if actor.role ≠ Role.teacher then (teacherRequired, st)
  else
    match name with
    | none => (⟨400, "Class name is required", Payload.none⟩, st)
    | some n =>
      if n == "" then (⟨400, "Class name is required", Payload.none⟩, st)
      else
        let newClass : Class := ⟨st.nextClassId, n, description, actor.id⟩
        (⟨201, "Class created successfully", Payload.cls newClass⟩,
          { st with classes := st.classes ++ [newClass], nextClassId := st.nextClassId + 1 })

/-- The constraints on the `StudentClass` join table that come with the two
`belongsToMany` associations through it, models/index.js lines 12-23: the pair
(studentId, classId) is a key of the table, studentId refers to a row of `User` and
classId to a row of `Class`.  The test says whether a batch of new rows respects them:
no pair twice in the batch, no pair already in the table, every student and every class
in its table. -/
def enrollmentsInsertable (st : State) (enrollments : List StudentClass) : Bool :=
  decide enrollments.Nodup &&
  enrollments.all (fun e => decide (e ∉ st.enrollments)) &&
  enrollments.all (fun e => st.users.any (fun u => u.id == e.studentId)) &&
  enrollments.all (fun e => st.classes.any (fun c => c.id == e.classId))

/-- The call `StudentClass.bulkCreate(enrollments)`: one insert of all rows.  When the
batch breaks a constraint of the join table the call throws and nothing is inserted
(`none`); otherwise every row of the batch is appended. -/
def bulkCreateEnrollments (st : State) (enrollments : List StudentClass) : Option State :=
  if enrollmentsInsertable st enrollments then
    some { st with enrollments := st.enrollments ++ enrollments }
  else none

/-- Handler `POST /api/classes/:id/students` (addStudents), classRoutes.js lines 167-207.
`studentIds = none` stands for a body whose `studentIds` is absent or not an array.
`StudentClass.findAll` with `where: \x7b studentId: studentIds \x7d` selects the rows whose
studentId is in the batch.  The handler makes no query on the `User` table; an
exception of `bulkCreate` ends in the `catch` block. -/
def addStudents (st : State) (actor : Actor) (classId : Nat)
    (studentIds : Option (List Nat)) : Response × State :=
  if actor.role ≠ Role.teacher then (teacherRequired, st)
  else
    match studentIds with
    | none => (⟨400, "Student IDs array is required", Payload.none⟩, st)
    | some ids =>
      match findClass st classId with
      | none => (⟨404, "Class not found or access denied", Payload.none⟩, st)
      | some classData =>
        if classData.teacherId ≠ actor.id then
          (⟨404, "Class not found or access denied", Payload.none⟩, st)
        else
          let existingEnrollments := st.enrollments.filter (fun e => decide (e.studentId ∈ ids))
          if existingEnrollments.length > 0 then
            (⟨400, "Some students are already enrolled in other classes",
              Payload.enrolledStudents (existingEnrollments.map (fun e => e.studentId))⟩, st)
          else
            let enrollments := ids.map (fun studentId => StudentClass.mk studentId classId)
            match bulkCreateEnrollments st enrollments with
            | none => (serverError, st)
            | some st1 => (⟨200, "Students added to class successfully", Payload.none⟩, st1)

/-- Handler `DELETE /api/classes/:id/students/:studentId` (removeStudent),
classRoutes.js lines 214-238.  `StudentClass.destroy` deletes every row matching
`where: \x7b classId, studentId \x7d` and returns how many it deleted; it runs before the
count is tested. -/
def removeStudent (st : State) (actor : Actor) (classId studentId : Nat) : Response × State :=
  if actor.role ≠ Role.teacher then (teacherRequired, st)
  else
    match findClass st classId with
    | none => (⟨404, "Class not found or access denied", Payload.none⟩, st)
    | some classData =>
      if classData.teacherId ≠ actor.id then
        (⟨404, "Class not found or access denied", Payload.none⟩, st)
      else
        let hit := fun (e : StudentClass) => e.classId == classId && e.studentId == studentId
        let result := (st.enrollments.filter hit).length
        let st1 := { st with enrollments := st.enrollments.filter (fun e => !hit e) }
        if result == 0 then (⟨404, "Student not found in this class", Payload.none⟩, st1)
        else (⟨200, "Student removed from class successfully", Payload.none⟩, st1)

/-! ## routes/subjectRoutes.js -/

/-- Handler `POST /api/subjects` (createSubject), subjectRoutes.js lines 22-50. -/
def createSubject (st : State) (actor : Actor) (name : Option String)
    (description : Option String) (classId : Option Nat) : Response × State :=
  if actor.role ≠ Role.teacher then (teacherRequired, st)
  else
    match name, classId with
    | some n, some cid =>
      if n == "" || cid == 0 then
        (⟨400, "Subject name and class ID are required", Payload.none⟩, st)
      else
        match findClass st cid with
        | none => (⟨404, "Class not found or access denied", Payload.none⟩, st)
        | some classData =>
          if classData.teacherId ≠ actor.id then
            (⟨404, "Class not found or access denied", Payload.none⟩, st)
          else
            let newSubject : Subject := ⟨st.nextSubjectId, n, description, cid⟩
            (⟨201, "Subject created successfully", Payload.subject newSubject⟩,
              { st with subjects := st.subjects ++ [newSubject],
                        nextSubjectId := st.nextSubjectId + 1 })
    | _, _ => (⟨400, "Subject name and class ID are required", Payload.none⟩, st)

/-- The instance method `subject.update` with the object `\x7b name, description \x7d`: a
field that is absent from the body (`none`) keeps its value; a description may be set
to `null` (`some none`). -/
def Subject.patch (s : Subject) (name : Option String)
    (description : Option (Option String)) : Subject :=
  { s with name := name.getD s.name, description := description.getD s.description }

/-- Handler `PUT /api/subjects/:id` (updateSubject), subjectRoutes.js lines 171-205.
`subject.Class` is the class joined on `subject.classId`; when there is none, reading
its `teacherId` throws and the `catch` block answers.  `subject.update` writes the
listed columns of the row with that id; the response carries the updated instance. -/
def updateSubject (st : State) (actor : Actor) (id : Nat) (name : Option String)
    (description : Option (Option String)) : Response × State :=
  if actor.role ≠ Role.teacher then (teacherRequired, st)
  else
    match findSubject st id with
    | none => (⟨404, "Subject not found", Payload.none⟩, st)
    | some subject =>
      match findClass st subject.classId with
      | none => (serverError, st)
      | some cls =>
        if cls.teacherId ≠ actor.id then (⟨403, "Access denied", Payload.none⟩, st)
        else
          let updated := subject.patch name description
          let rows := st.subjects.map (fun s => if s.id == id then s.patch name description else s)
          (⟨200, "Subject updated successfully", Payload.subject updated⟩,
            { st with subjects := rows })

/-- Modelled from the spec: the effect of `subject.destroy()` on the store.  The
`Grade` model, whose `subjectId` column fixes the delete rule of the association
`Subject.hasMany(Grade)` (models/index.js line 34), is not among the sources; the spec
says that deleting a subject removes its dependent grades. -/
def destroySubject (st : State) (id : Nat) : State :=
  { st with subjects := st.subjects.filter (fun s => s.id != id),
            grades := st.grades.filter (fun g => g.subjectId != id) }

/-- Handler `DELETE /api/subjects/:id` (deleteSubject), subjectRoutes.js lines 212-242. -/
def deleteSubject (st : State) (actor : Actor) (id : Nat) : Response × State :=
  if actor.role ≠ Role.teacher then (teacherRequired, st)
  else
    match findSubject st id with
    | none => (⟨404, "Subject not found", Payload.none⟩, st)
    | some subject =>
      match findClass st subject.classId with
      | none => (serverError, st)
      | some cls =>
        if cls.teacherId ≠ actor.id then (⟨403, "Access denied", Payload.none⟩, st)
        else (⟨200, "Subject deleted successfully", Payload.none⟩, destroySubject st id)

/-! ## routes/gradeRoutes.js -/

/-- JavaScript `x || null` on an optional string: the empty string becomes `null`. -/
def orNull : Option String → Option String
  | none => none
  | some s => if s == "" then none else some s

/-- Message of the 400 response for a student who is not enrolled (a template literal
in the source). -/
def notEnrolledMessage (studentId : Nat) : String :=
  "Student with ID " ++ toString studentId ++ " is not enrolled in this class"

/-- The validation loop of `POST /api/grades`, gradeRoutes.js lines 59-80: the response
of the first `return` reached, or `none` when the loop runs to its end. -/
def validateGrades (st : State) (classId : Nat) : List GradeEntry → Option Response
  | [] => none
  | gradeData :: rest =>
    match gradeData.studentId, gradeData.grade with
    | some studentId, some grade =>
      if studentId == 0 then
        some ⟨400, "Student ID and grade are required for each entry", Payload.none⟩
      else if grade < 0 ∨ grade > 100 then
        some ⟨400, "Grade must be between 0 and 100", Payload.none⟩
      else if !isEnrolled st studentId classId then
        some ⟨400, notEnrolledMessage studentId, Payload.none⟩
      else validateGrades st classId rest
    | _, _ => some ⟨400, "Student ID and grade are required for each entry", Payload.none⟩

/-- One element of `gradeEntries`, gradeRoutes.js lines 83-89.  After the validation
loop both `studentId` and `grade` are present, so the defaults are never used. -/
def toGradeValues (subjectId : Nat) (gradeData : GradeEntry) : GradeValues :=
  ⟨gradeData.studentId.getD 0, subjectId, gradeData.grade.getD 0,
    orNull gradeData.assignment, orNull gradeData.comments⟩

/-- Modelled from the spec: the unique key of the `Grade` table that the option
`updateOnDuplicate` relies on.  The `Grade` model is not among the sources; the spec
gives the upsert key as (studentId, subjectId). -/
def sameGradeKey (g : Grade) (v : GradeValues) : Bool :=
  g.studentId == v.studentId && g.subjectId == v.subjectId

/-- One row of `Grade.bulkCreate` with `updateOnDuplicate: ['grade', 'assignment',
'comments']`: when a row with the same key exists its three listed columns are
replaced, otherwise a row with a fresh id is inserted.  The pair is the table and the
auto-increment counter. -/
def upsertGrade (acc : List Grade × Nat) (v : GradeValues) : List Grade × Nat :=
  if acc.1.any (fun g => sameGradeKey g v) then
    (acc.1.map (fun g =>
        if sameGradeKey g v then
          { g with grade := v.grade, assignment := v.assignment, comments := v.comments }
        else g),
      acc.2)
  else
    (acc.1 ++ [⟨acc.2, v.studentId, v.subjectId, v.grade, v.assignment, v.comments⟩], acc.2 + 1)

/-- The call `Grade.bulkCreate(gradeEntries, ...)`: the rows are applied in order. -/
def bulkUpsertGrades (gs : List Grade) (next : Nat) (vs : List GradeValues) :
    List Grade × Nat :=
  vs.foldl upsertGrade (gs, next)

/-- Handler `POST /api/grades` (assignGrades), gradeRoutes.js lines 31-103.
`grades = none` stands for a body whose `grades` is absent or not an array. -/
def assignGrades (st : State) (actor : Actor) (subjectId : Option Nat)
    (grades : Option (List GradeEntry)) : Response × State :=
  if actor.role ≠ Role.teacher then (teacherRequired, st)
  else
    match subjectId, grades with
    | some sid, some entries =>
      if sid == 0 then
        (⟨400, "Subject ID and grades array are required", Payload.none⟩, st)
      else
        match findSubject st sid with
        | none => (⟨404, "Subject not found", Payload.none⟩, st)
        | some subject =>
          match findClass st subject.classId with
          | none => (serverError, st)
          | some cls =>
            if cls.teacherId ≠ actor.id then (⟨403, "Access denied", Payload.none⟩, st)
            else
              match validateGrades st subject.classId entries with
              | some rejection => (rejection, st)
              | none =>
                let gradeEntries := entries.map (toGradeValues sid)
                let written := bulkUpsertGrades st.grades st.nextGradeId gradeEntries
                (⟨201, "Grades assigned successfully", Payload.gradeEntries gradeEntries⟩,
                  { st with grades := written.1, nextGradeId := written.2 })
    | _, _ => (⟨400, "Subject ID and grades array are required", Payload.none⟩, st)

/-- The instance method `gradeRecord.update` with the object
`\x7b grade, assignment, comments \x7d`: a field absent from the body keeps its value. -/
def Grade.patch (g : Grade) (grade : ℚ) (assignment comments : Option (Option String)) :
    Grade :=
  { g with grade := grade, assignment := assignment.getD g.assignment,
           comments := comments.getD g.comments }

/-- The teacher at the end of the chain grade → subject → class that the `include`
option of `Grade.findByPk` loads, or `none` when the subject or the class is missing
(reading `gradeRecord.Subject.Class.teacherId` then throws). -/
def gradeTeacher (st : State) (g : Grade) : Option Nat :=
  match findSubject st g.subjectId with
  | none => none
  | some subject =>
    match findClass st subject.classId with
    | none => none
    | some cls => some cls.teacherId

/-- Handler `PUT /api/grades/:id` (updateGrade), gradeRoutes.js lines 244-292.
`gradeRecord.update` writes the listed columns of the row with that id; the response
carries the updated instance. -/
def updateGrade (st : State) (actor : Actor) (id : Nat) (grade : Option ℚ)
    (assignment comments : Option (Option String)) : Response × State :=
  if actor.role ≠ Role.teacher then (teacherRequired, st)
  else
    match grade with
    | none => (⟨400, "Grade is required", Payload.none⟩, st)
    | some g =>
      if g < 0 ∨ g > 100 then (⟨400, "Grade must be between 0 and 100", Payload.none⟩, st)
      else
        match findGrade st id with
        | none => (⟨404, "Grade not found", Payload.none⟩, st)
        | some gradeRecord =>
          match gradeTeacher st gradeRecord with
          | none => (serverError, st)
          | some teacherId =>
            if teacherId ≠ actor.id then (⟨403, "Access denied", Payload.none⟩, st)
            else
              let updated := gradeRecord.patch g assignment comments
              let rows := st.grades.map
                (fun r => if r.id == id then r.patch g assignment comments else r)
              (⟨200, "Grade updated successfully", Payload.grade updated⟩,
                { st with grades := rows })

/-- Handler `DELETE /api/grades/:id` (deleteGrade), gradeRoutes.js lines 299-335. -/
def deleteGrade (st : State) (actor : Actor) (id : Nat) : Response × State :=
  if actor.role ≠ Role.teacher then (teacherRequired, st)
  else
    match findGrade st id with
    | none => (⟨404, "Grade not found", Payload.none⟩, st)
    | some gradeRecord =>
      match gradeTeacher st gradeRecord with
      | none => (serverError, st)
      | some teacherId =>
        if teacherId ≠ actor.id then (⟨403, "Access denied", Payload.none⟩, st)
        else
          (⟨200, "Grade deleted successfully", Payload.none⟩,
            { st with grades := st.grades.filter (fun r => r.id != id) })

/-! ## Read routes

A read route answers either with an error response or, with status 200, with the
JSON data itself: `Except.error` and `Except.ok`.  The column `createdAt` is not part
of the rows; `order: [['createdAt', 'DESC']]` is the table order reversed, the rows of
a table being kept in insertion order. -/

/-- The attributes `['id', 'name', 'email']` of a user. -/
structure UserInfo where
  id : Nat
  name : String
  email : String
deriving DecidableEq, Repr

/-- Projection of a user row on `['id', 'name', 'email']`. -/
def userInfo (u : User) : UserInfo := ⟨u.id, u.name, u.email⟩

/-- The attributes `['id', 'name', 'description']` of a subject. -/
structure SubjectInfo where
  id : Nat
  name : String
  description : Option String
deriving DecidableEq, Repr

/-- Projection of a subject row on `['id', 'name', 'description']`. -/
def subjectInfo (s : Subject) : SubjectInfo := ⟨s.id, s.name, s.description⟩

/-- Response of the `isStudent` middleware when the role is not `student`. -/
def studentRequired : Response :=
  ⟨403, "Access denied. Student role required.", Payload.none⟩

/-- Handler `GET /api/classes/available-students` (availableStudents),
classRoutes.js lines 90-115. -/
def availableStudents (st : State) (actor : Actor) : Except Response (List UserInfo) :=
  if actor.role ≠ Role.teacher then Except.error teacherRequired
  else
    let allStudents := (st.users.filter (fun u => decide (u.role = Role.student))).map userInfo
    let enrolledStudents := st.enrollments
    let enrolledStudentIds := enrolledStudents.map (fun sc => sc.studentId)
    let availableStudents := allStudents.filter
      (fun student => !(enrolledStudentIds.contains student.id))
    Except.ok availableStudents

/-- The association `students` of a class: the users joined to it through the
`StudentClass` rows of the class. -/
def classStudents (st : State) (classId : Nat) : List UserInfo :=
  (st.enrollments.filter (fun e => e.classId == classId)).filterMap
    (fun e => (st.users.find? (fun u => u.id == e.studentId)).map userInfo)

/-- The association `subjects` of a class. -/
def classSubjects (st : State) (classId : Nat) : List SubjectInfo :=
  (st.subjects.filter (fun s => s.classId == classId)).map subjectInfo

/-- A class with its included `students` and `subjects`. -/
structure ClassView where
  cls : Class
  students : List UserInfo
  subjects : List SubjectInfo
deriving DecidableEq

/-- Handler `GET /api/classes/:id` (getClass), classRoutes.js lines 122-160. -/
def getClass (st : State) (actor : Actor) (classId : Nat) : Except Response ClassView :=
  match findClass st classId with
  | none => Except.error ⟨404, "Class not found", Payload.none⟩
  | some classData =>
    let students := classStudents st classId
    let isTeacherOfClass := classData.teacherId == actor.id
    let isStudentInClass := decide (actor.role = Role.student) &&
      students.any (fun student => student.id == actor.id)
    if !isTeacherOfClass && !isStudentInClass then
      Except.error ⟨403, "Access denied", Payload.none⟩
    else Except.ok ⟨classData, students, classSubjects st classId⟩

/-- Handler `GET /api/subjects/class/:classId` (listSubjectsForClass),
subjectRoutes.js lines 57-86. -/
def listSubjectsForClass (st : State) (actor : Actor) (classId : Nat) :
    Except Response (List SubjectInfo) :=
  match findClass st classId with
  | none => Except.error ⟨404, "Class not found", Payload.none⟩
  | some classData =>
    let isTeacherOfClass := classData.teacherId == actor.id
    let isStudentInClass := decide (actor.role = Role.student) &&
      isEnrolled st actor.id classId
    if !isTeacherOfClass && !isStudentInClass then
      Except.error ⟨403, "Access denied", Payload.none⟩
    else
      let subjects := (st.subjects.filter (fun s => s.classId == classId)).map subjectInfo
      Except.ok subjects

/-- The `subject` object of the response of `GET /api/subjects/:id`. -/
structure SubjectView where
  id : Nat
  name : String
  description : Option String
  classId : Nat
  className : String
deriving DecidableEq, Repr

/-- Handler `GET /api/subjects/:id` (getSubject), subjectRoutes.js lines 93-164.  The
second component is the `students` list, present only in the answer to the teacher of
the class. -/
def getSubject (st : State) (actor : Actor) (id : Nat) :
    Except Response (SubjectView × Option (List UserInfo)) :=
  match findSubject st id with
  | none => Except.error ⟨404, "Subject not found", Payload.none⟩
  | some subject =>
    match findClass st subject.classId with
    | none => Except.error serverError
    | some cls =>
      let isTeacherOfClass := cls.teacherId == actor.id
      let isStudentInClass := decide (actor.role = Role.student) &&
        isEnrolled st actor.id subject.classId
      if !isTeacherOfClass && !isStudentInClass then
        Except.error ⟨403, "Access denied", Payload.none⟩
      else
        let view : SubjectView :=
          ⟨subject.id, subject.name, subject.description, subject.classId, cls.name⟩
        if isTeacherOfClass then
          let students := (st.users.filter (fun u =>
            decide (u.role = Role.student) && isEnrolled st u.id subject.classId)).map userInfo
          Except.ok (view, some students)
        else Except.ok (view, none)

/-- A grade with its included `student`. -/
structure GradeWithStudent where
  grade : Grade
  student : Option UserInfo
deriving DecidableEq

/-- Handler `GET /api/grades/subject/:subjectId` (listForSubject),
gradeRoutes.js lines 110-150. -/
def listForSubject (st : State) (actor : Actor) (subjectId : Nat) :
    Except Response (List GradeWithStudent) :=
  if actor.role ≠ Role.teacher then Except.error teacherRequired
  else
    match findSubject st subjectId with
    | none => Except.error ⟨404, "Subject not found", Payload.none⟩
    | some subject =>
      match findClass st subject.classId with
      | none => Except.error serverError
      | some cls =>
        if cls.teacherId ≠ actor.id then Except.error ⟨403, "Access denied", Payload.none⟩
        else
          let grades := (st.grades.filter (fun g => g.subjectId == subjectId)).reverse
          Except.ok (grades.map (fun g =>
            ⟨g, (st.users.find? (fun u => u.id == g.studentId)).map userInfo⟩))

/-- The attributes `['id', 'name']` of an included class. -/
structure ClassRef where
  id : Nat
  name : String
deriving DecidableEq, Repr

/-- The attributes `['id', 'name']` of an included subject, with its included class
when the query asks for it. -/
structure SubjectRef where
  id : Nat
  name : String
  cls : Option ClassRef
deriving DecidableEq, Repr

/-- A grade with its included `Subject`. -/
structure GradeWithSubject where
  grade : Grade
  subject : Option SubjectRef
deriving DecidableEq

/-- The included `Subject` of a grade; `withClass` says whether the query nests the
include of `Class`. -/
def subjectRef (st : State) (withClass : Bool) (g : Grade) : Option SubjectRef :=
  (findSubject st g.subjectId).map (fun s =>
    ⟨s.id, s.name,
      if withClass then (findClass st s.classId).map (fun c => ClassRef.mk c.id c.name)
      else none⟩)

/-- Handler `GET /api/grades/my-grades` (listMine), gradeRoutes.js lines 157-183. -/
def listMine (st : State) (actor : Actor) : Except Response (List GradeWithSubject) :=
  if actor.role ≠ Role.student then Except.error studentRequired
  else
    let grades := (st.grades.filter (fun g => g.studentId == actor.id)).reverse
    Except.ok (grades.map (fun g => ⟨g, subjectRef st true g⟩))

/-- Handler `GET /api/grades/subject/:subjectId/my-grade` (listForSubjectMine),
gradeRoutes.js lines 190-237. -/
def listForSubjectMine (st : State) (actor : Actor) (subjectId : Nat) :
    Except Response (List GradeWithSubject) :=
  if actor.role ≠ Role.student then Except.error studentRequired
  else
    match findSubject st subjectId with
    | none => Except.error ⟨404, "Subject not found", Payload.none⟩
    | some subject =>
      if !isEnrolled st actor.id subject.classId then
        Except.error ⟨403, "Access denied", Payload.none⟩
      else
        let grades := (st.grades.filter
          (fun g => g.studentId == actor.id && g.subjectId == subjectId)).reverse
        Except.ok (grades.map (fun g => ⟨g, subjectRef st false g⟩))

/-- No grade row refers to a subject that does not exist. -/
def NoOrphanGrades (st : State) : Prop :=
  ∀ g ∈ st.grades, ∃ s ∈ st.subjects, s.id = g.subjectId

/-- The ids of the class table are a primary key: no two rows share one. -/
def ClassIdsUnique (st : State) : Prop :=
  (st.classes.map (fun c => c.id)).Nodup

instance (st : State) : Decidable (ClassIdsUnique st) := by
  unfold ClassIdsUnique; infer_instance

/-! ## frontend/js/teacher.js -/

/-- The code points that JavaScript `trim` strips: the WhiteSpace and LineTerminator
productions of ECMAScript. -/
def isJsSpace (c : Char) : Bool :=
  let n := c.toNat
  (9 ≤ n && n ≤ 13) || n == 32 || n == 160 || n == 5760 || (8192 ≤ n && n ≤ 8202) ||
    n == 8232 || n == 8233 || n == 8239 || n == 8287 || n == 12288 || n == 65279

/-- JavaScript `String.prototype.trim`. -/
def jsTrim (s : String) : String :=
  String.mk ((s.data.dropWhile isJsSpace).reverse.dropWhile isJsSpace).reverse

/-- The function `createClass` of the teacher page, teacher.js lines 67-75: both
fields are trimmed, a name that is empty after trimming raises the alert
`Class name is required` and sends nothing (`none`); otherwise the trimmed values are
posted to `POST /api/classes`. -/
def pageCreateClass (st : State) (actor : Actor) (nameField descField : String) :
    Option (Response × State) :=
  let name := jsTrim nameField
  let description := jsTrim descField
  if name == "" then none
  else some (createClass st actor (some name) (some description))

/-! ## Requests and reachable stores -/

/-- One call of a modelled mutating route, with its parameters and body. -/
inductive Request where
  | createClass (name description : Option String)
  | addStudents (classId : Nat) (studentIds : Option (List Nat))
  | removeStudent (classId studentId : Nat)
  | createSubject (name description : Option String) (classId : Option Nat)
  | updateSubject (id : Nat) (name : Option String) (description : Option (Option String))
  | deleteSubject (id : Nat)
  | assignGrades (subjectId : Option Nat) (grades : Option (List GradeEntry))
  | updateGrade (id : Nat) (grade : Option ℚ) (assignment comments : Option (Option String))
  | deleteGrade (id : Nat)

/-- Dispatch of a request to its handler. -/
def handle (st : State) (actor : Actor) : Request → Response × State
  | Request.createClass n d => createClass st actor n d
  | Request.addStudents c ids => addStudents st actor c ids
  | Request.removeStudent c s => removeStudent st actor c s
  | Request.createSubject n d c => createSubject st actor n d c
  | Request.updateSubject i n d => updateSubject st actor i n d
  | Request.deleteSubject i => deleteSubject st actor i
  | Request.assignGrades s g => assignGrades st actor s g
  | Request.updateGrade i g a c => updateGrade st actor i g a c
  | Request.deleteGrade i => deleteGrade st actor i

/-- Stores reachable from `s0` by any sequence of requests of any actors. -/
inductive Reachable (s0 : State) : State → Prop where
  | refl : Reachable s0 s0
  | step (s : State) (actor : Actor) (req : Request) :
      Reachable s0 s → Reachable s0 (handle s actor req).2

/-- Each studentId occurs in at most one enrollment row. -/
def SingleEnrollment (st : State) : Prop :=
  (st.enrollments.map (fun e => e.studentId)).Nodup

instance (st : State) : Decidable (SingleEnrollment st) := by
  unfold SingleEnrollment; infer_instance

/-- No student has enrollment rows in two different classes. -/
def OneClassPerStudent (st : State) : Prop :=
  ∀ e1 ∈ st.enrollments, ∀ e2 ∈ st.enrollments, e1.studentId = e2.studentId → e1.classId = e2.classId

/-- An entry that passes the three checks of the validation loop: a studentId that
is present and not `0`, a grade that is present and within [0, 100], and a student
enrolled in the class. -/
def EntryValid (st : State) (classId : Nat) (e : GradeEntry) : Prop :=
  ∃ s g, e.studentId = some s ∧ s ≠ 0 ∧ e.grade = some g ∧ 0 ≤ g ∧ g ≤ 100 ∧
    isEnrolled st s classId = true

/-- An entry that fails validation in the words of the spec: studentId or grade
missing, grade below 0 or above 100, or student not enrolled in the class. -/
def EntryInvalid (st : State) (classId : Nat) (e : GradeEntry) : Prop :=
  e.studentId = none ∨ e.grade = none ∨ (∃ g, e.grade = some g ∧ (g < 0 ∨ g > 100)) ∨
    (∃ s, e.studentId = some s ∧ isEnrolled st s classId = false)

/-- Every grade of the ledger lies within [0, 100]. -/
def GradesInRange (st : State) : Prop :=
  ∀ g ∈ st.grades, 0 ≤ g.grade ∧ g.grade ≤ 100

/-- The teacher owning a class, when the class exists. -/
def classTeacher (st : State) (classId : Nat) : Option Nat :=
  (findClass st classId).map (fun c => c.teacherId)

/-- The teacher owning the class of a subject, when subject and class exist. -/
def subjectTeacher (st : State) (subjectId : Nat) : Option Nat :=
  (findSubject st subjectId).bind (fun s => classTeacher st s.classId)

/-- The teacher at the end of the chain grade → subject → class, when all three exist. -/
def gradeOwner (st : State) (gradeId : Nat) : Option Nat :=
  (findGrade st gradeId).bind (fun g => gradeTeacher st g)

/-- Modelled from the spec: the unique key (studentId, subjectId) of the `Grade`
table as a property of a ledger: no two rows carry the same pair. -/
def GradeKeyUnique (gs : List Grade) : Prop :=
  (gs.map (fun g => (g.studentId, g.subjectId))).Nodup

instance (gs : List Grade) : Decidable (GradeKeyUnique gs) := by
  unfold GradeKeyUnique; infer_instance

/-- The rows of a ledger for one (studentId, subjectId) pair. -/
def rowsFor (gs : List Grade) (studentId subjectId : Nat) : List Grade :=
  gs.filter (fun r => r.studentId == studentId && r.subjectId == subjectId)

/-- Rows with the key of `v` exist and carry the values of `v`. -/
def CarriesValues (gs : List Grade) (v : GradeValues) : Prop :=
  (∃ row ∈ gs, sameGradeKey row v = true) ∧
  ∀ row ∈ gs, sameGradeKey row v = true →
    row.grade = v.grade ∧ row.assignment = v.assignment ∧ row.comments = v.comments

/-- The class table is as auto-increment leaves it: its ids are a primary key and lie
below the counter. -/
def ClassTableOk (st : State) : Prop :=
  ClassIdsUnique st ∧ ∀ c ∈ st.classes, c.id < st.nextClassId

/-! ## The scenario of the spec -/

/-- Step 1 of the scenario: teacher `T` creates the class "Algebra-1". -/
def scenarioClass (st0 : State) (T : Nat) : Response × State :=
  createClass st0 ⟨T, Role.teacher⟩ (some "Algebra-1") none

/-- Step 2: teacher `T` adds student `S` to the class just created, whose id is the
value of the class counter before step 1. -/
def scenarioEnroll (st0 : State) (T S : Nat) : Response × State :=
  addStudents (scenarioClass st0 T).2 ⟨T, Role.teacher⟩ st0.nextClassId (some [S])

/-- Step 3: teacher `T` creates the subject "Midterm" in that class. -/
def scenarioSubject (st0 : State) (T S : Nat) : Response × State :=
  createSubject (scenarioEnroll st0 T S).2 ⟨T, Role.teacher⟩ (some "Midterm") none
    (some st0.nextClassId)

/-- Step 4: teacher `T` submits the grade 87.5 of student `S` for the subject just
created, whose id is the value of the subject counter before step 3. -/
def scenarioGrade (st0 : State) (T S : Nat) : Response × State :=
  assignGrades (scenarioSubject st0 T S).2 ⟨T, Role.teacher⟩ (some st0.nextSubjectId)
    (some [⟨some S, some 87.5, none, none⟩])

/-! ## Example store -/

/-- Teacher with id 1. -/
def teacherT : Actor := ⟨1, Role.teacher⟩

/-- Teacher with id 2. -/
def teacherT2 : Actor := ⟨2, Role.teacher⟩

/-- Student with id 5. -/
def studentS : Actor := ⟨5, Role.student⟩

/-- A store with two teachers, one student, the class 1 of teacher 1, and nothing else. -/
def store1 : State :=
  { users := [⟨1, "T", "t@school", Role.teacher, true⟩, ⟨2, "T2", "t2@school", Role.teacher, true⟩,
              ⟨5, "S", "s@school", Role.student, false⟩],
    classes := [⟨1, "Algebra-1", none, 1⟩],
    enrollments := [], subjects := [], grades := [],
    nextClassId := 2, nextSubjectId := 1, nextGradeId := 1 }

/-- The store `store1` with students 5, 6, 8 and 9 enrolled in class 1 and the subject 1
of class 1. -/
def store2 : State :=
  { store1 with
    enrollments := [⟨5, 1⟩, ⟨6, 1⟩, ⟨8, 1⟩, ⟨9, 1⟩],
    subjects := [⟨1, "Midterm", none, 1⟩],
    nextSubjectId := 2 }

/-- A batch of five entries whose third entry carries the grade 150. -/
def batch5 : List GradeEntry :=
  [⟨some 5, some 90, none, none⟩, ⟨some 6, some 80, none, none⟩, ⟨some 8, some 150, none, none⟩,
   ⟨some 9, some 70, none, none⟩, ⟨some 5, some 60, none, none⟩]

/-- The store `store2` with one grade row for student 5 in subject 1. -/
def store3 : State :=
  { store2 with grades := [⟨1, 5, 1, 70, some "quiz", none⟩], nextGradeId := 2 }

/-- A batch with two entries for student 5, under different assignment labels, and one
entry for student 6. -/
def batch3 : List GradeEntry :=
  [⟨some 5, some 90, some "hw1", none⟩, ⟨some 6, some 80, none, none⟩,
   ⟨some 5, some 60, some "hw2", some "late"⟩]

/-! ## Theorems: enrollment -/

theorem filter_length_zero {α : Type} (p : α → Bool) (l : List α)
    (h : ¬ (l.filter p).length > 0) : ∀ x ∈ l, p x = false := by
  intro x hx
  by_contra hp
  have hm : x ∈ l.filter p := List.mem_filter.mpr ⟨hx, by simpa using hp⟩
  exact h (List.length_pos_of_mem hm)

theorem bulkCreateEnrollments_some (st : State) (rows : List StudentClass) (st1 : State)
    (h : bulkCreateEnrollments st rows = some st1) :
    st1 = { st with enrollments := st.enrollments ++ rows } ∧ rows.Nodup ∧
    (∀ e ∈ rows, e ∉ st.enrollments) ∧
    (∀ e ∈ rows, ∃ u ∈ st.users, u.id = e.studentId) ∧
    (∀ e ∈ rows, ∃ c ∈ st.classes, c.id = e.classId) := by
  unfold bulkCreateEnrollments at h
  split at h
  · rename_i hok
    simp only [enrollmentsInsertable, Bool.and_eq_true, decide_eq_true_eq, List.all_eq_true,
      List.any_eq_true, beq_iff_eq] at hok
    obtain ⟨⟨⟨hnodup, hnew⟩, husers⟩, hclasses⟩ := hok
    cases h
    exact ⟨rfl, hnodup, hnew, husers, hclasses⟩
  · cases h

/-- The two outcomes of addStudents: an answer other than 200 with the store unchanged,
or the answer 200 with one row per id of the batch appended, the batch then being
without repeated id, made of ids of users, and of ids that had no enrollment row. -/
theorem addStudents_outcome (st : State) (actor : Actor) (classId : Nat)
    (ids : Option (List Nat)) :
    ((addStudents st actor classId ids).1.status ≠ 200 ∧
      (addStudents st actor classId ids).2 = st) ∨
    ∃ l, ids = some l ∧ l.Nodup ∧ (∀ x ∈ l, ∃ u ∈ st.users, u.id = x) ∧
      (∀ e ∈ st.enrollments, e.studentId ∉ l) ∧
      (addStudents st actor classId ids).1.status = 200 ∧
      (addStudents st actor classId ids).2 =
        { st with enrollments :=
            st.enrollments ++ l.map (fun studentId => StudentClass.mk studentId classId) } := by
  by_cases hrole : actor.role = Role.teacher
  · cases ids with
    | none => exact Or.inl (by simp [addStudents, hrole])
    | some l =>
      cases hcls : findClass st classId with
      | none => exact Or.inl (by simp [addStudents, hrole, hcls])
      | some cls =>
        by_cases hown : cls.teacherId = actor.id
        · by_cases hlen : (st.enrollments.filter
              (fun e => decide (e.studentId ∈ l))).length > 0
          · exact Or.inl (by simp [addStudents, hrole, hcls, hown, hlen])
          · cases hb : bulkCreateEnrollments st
                (l.map (fun studentId => StudentClass.mk studentId classId)) with
            | none =>
              exact Or.inl (by simp [addStudents, hrole, hcls, hown, hlen, hb, serverError])
            | some st1 =>
              obtain ⟨hst1, hnodup, _, husers, _⟩ := bulkCreateEnrollments_some st _ st1 hb
              refine Or.inr ⟨l, rfl, ?_, ?_, ?_, ?_, ?_⟩
              · exact List.Nodup.of_map _ hnodup
              · intro x hx
                exact husers ⟨x, classId⟩ (List.mem_map.mpr ⟨x, hx, rfl⟩)
              · intro e he
                have := filter_length_zero _ _ hlen e he
                simpa using this
              · simp [addStudents, hrole, hcls, hown, hlen, hb]
              · rw [← hst1]
                simp [addStudents, hrole, hcls, hown, hlen, hb]
        · exact Or.inl (by simp [addStudents, hrole, hcls, hown])
  · exact Or.inl (by simp [addStudents, hrole, teacherRequired])

/-- On a store where every student has at most one enrollment row, addStudents leaves
it so, whatever the batch. -/
theorem addStudents_single (st : State) (actor : Actor) (classId : Nat)
    (ids : Option (List Nat)) (hst : SingleEnrollment st) :
    SingleEnrollment (addStudents st actor classId ids).2 := by
  rcases addStudents_outcome st actor classId ids with ⟨_, h⟩ | ⟨l, _, hnodup, _, hfree, _, h⟩
  · rw [h]
    exact hst
  · rw [h]
    unfold SingleEnrollment at *
    simp only [List.map_append, List.map_map]
    have hmap : (List.map ((fun e => e.studentId) ∘ fun studentId =>
        StudentClass.mk studentId classId) l) = l := by
      simp [Function.comp_def]
    rw [hmap, List.nodup_append]
    refine ⟨hst, hnodup, ?_⟩
    intro a ha hb
    obtain ⟨e, he, rfl⟩ := List.mem_map.mp ha
    exact hfree e he hb

/-- On a store where every student has at most one enrollment row, a batch without
repeated ids leaves it so. -/
theorem addStudents_single_of_nodup (st : State) (actor : Actor) (classId : Nat)
    (ids : List Nat) (hst : SingleEnrollment st) (_hids : ids.Nodup) :
    SingleEnrollment (addStudents st actor classId (some ids)).2 :=
  addStudents_single st actor classId (some ids) hst

theorem single_filter (st : State) (q : StudentClass → Bool) (hst : SingleEnrollment st) :
    SingleEnrollment { st with enrollments := st.enrollments.filter q } := by
  unfold SingleEnrollment at *
  exact List.Nodup.sublist (List.Sublist.map _ (List.filter_sublist _)) hst

/-- Removing a student never creates a second row for anyone. -/
theorem removeStudent_single (st : State) (actor : Actor) (classId studentId : Nat)
    (hst : SingleEnrollment st) :
    SingleEnrollment (removeStudent st actor classId studentId).2 := by
  simp only [removeStudent]
  repeat' split
  all_goals first
    | exact hst
    | exact single_filter st _ hst

theorem handle_single (st : State) (actor : Actor) (req : Request)
    (h : SingleEnrollment st) : SingleEnrollment (handle st actor req).2 := by
  cases req with
  | addStudents c ids => exact addStudents_single st actor c ids h
  | removeStudent c s => exact removeStudent_single st actor c s h
  | createClass n d =>
    simp only [handle, createClass]
    repeat' split
    all_goals exact h
  | createSubject n d c =>
    simp only [handle, createSubject]
    repeat' split
    all_goals exact h
  | updateSubject i n d =>
    simp only [handle, updateSubject]
    repeat' split
    all_goals exact h
  | deleteSubject i =>
    simp only [handle, deleteSubject]
    repeat' split
    all_goals exact h
  | assignGrades sid g =>
    simp only [handle, assignGrades]
    repeat' split
    all_goals exact h
  | updateGrade i g a c =>
    simp only [handle, updateGrade]
    repeat' split
    all_goals exact h
  | deleteGrade i =>
    simp only [handle, deleteGrade]
    repeat' split
    all_goals exact h

/-- C1: from a store without enrollment rows, in every store reached by any sequence of
requests of any actors (addStudents with any batch, a batch that repeats an id
included, removeStudent, and the seven other mutations) each studentId occurs in at
most one enrollment row; and a batch that repeats an id is never inserted: the store
after such an addStudents is the store before it. -/
theorem single_enrollment_invariant (s0 s : State) (h0 : s0.enrollments = [])
    (hr : Reachable s0 s) :
    SingleEnrollment s ∧
    ∀ actor classId ids, ¬ ids.Nodup →
      (addStudents s actor classId (some ids)).1.status ≠ 200 ∧
      (addStudents s actor classId (some ids)).2 = s := by
  constructor
  · induction hr with
    | refl =>
      unfold SingleEnrollment
      rw [h0]
      exact List.nodup_nil
    | step s actor req _ ih => exact handle_single s actor req ih
  · intro actor classId ids hdup
    rcases addStudents_outcome s actor classId (some ids) with h | ⟨l, hl, hnodup, _⟩
    · exact h
    · cases hl
      exact absurd hnodup hdup

/-- Witness for C1: on `store1`, which has no enrollment row, the batch [5, 5] of
teacher 1 for class 1 ends in the catch block and the store reached has at most one row
per student. -/
theorem single_enrollment_invariant_witness :
    SingleEnrollment (addStudents store1 teacherT 1 (some [5, 5])).2 ∧
    (addStudents store1 teacherT 1 (some [5, 5])).1.status = 500 ∧
    (addStudents store1 teacherT 1 (some [5, 5])).2 = store1 :=
  ⟨(single_enrollment_invariant store1 (addStudents store1 teacherT 1 (some [5, 5])).2 rfl
      (Reachable.step store1 teacherT (Request.addStudents 1 (some [5, 5])) Reachable.refl)).1,
    by decide, by decide⟩

/-- C6: on a class owned by the calling teacher, when some id of the batch is not the
id of a user, addStudents does not succeed: it answers 400 (an id of the batch is
already enrolled) or 500 (the insert is refused), and the store, the enrollment rows
included, is the one before the call. -/
theorem addStudents_unknown_id_rejected (st : State) (actor : Actor) (classId : Nat)
    (ids : List Nat) (cls : Class)
    (hrole : actor.role = Role.teacher)
    (hcls : findClass st classId = some cls) (hown : cls.teacherId = actor.id)
    (hunknown : ∃ x ∈ ids, ∀ u ∈ st.users, u.id ≠ x) :
    ((addStudents st actor classId (some ids)).1.status = 400 ∨
      (addStudents st actor classId (some ids)).1.status = 500) ∧
    (addStudents st actor classId (some ids)).2 = st ∧
    (addStudents st actor classId (some ids)).2.enrollments = st.enrollments := by
  obtain ⟨x, hx, hno⟩ := hunknown
  have hb : bulkCreateEnrollments st
      (ids.map (fun studentId => StudentClass.mk studentId classId)) = none := by
    cases hb : bulkCreateEnrollments st
        (ids.map (fun studentId => StudentClass.mk studentId classId)) with
    | none => rfl
    | some st1 =>
      obtain ⟨_, _, _, husers, _⟩ := bulkCreateEnrollments_some st _ st1 hb
      obtain ⟨u, hu, huid⟩ := husers ⟨x, classId⟩ (List.mem_map.mpr ⟨x, hx, rfl⟩)
      exact absurd huid (hno u hu)
  by_cases hlen : (st.enrollments.filter (fun e => decide (e.studentId ∈ ids))).length > 0
  · simp [addStudents, hrole, hcls, hown, hlen]
  · simp [addStudents, hrole, hcls, hown, hlen, hb, serverError]

/-- Witness for C6: no user of `store1` has id 99; addStudents(teacher 1, class 1, [99])
answers 500 and creates no row. -/
theorem addStudents_unknown_id_rejected_witness :
    (addStudents store1 teacherT 1 (some [99])).1.status = 500 ∧
    (addStudents store1 teacherT 1 (some [99])).2 = store1 ∧
    (addStudents store1 teacherT 1 (some [99])).2.enrollments = store1.enrollments :=
  ⟨by decide,
   (addStudents_unknown_id_rejected store1 teacherT 1 [99] ⟨1, "Algebra-1", none, 1⟩ rfl rfl rfl
      ⟨99, by decide, by decide⟩).2⟩

/-- C7: when the caller is the teacher owning the class and at least one id of the
batch already has an enrollment row (in any class), addStudents answers 400, leaves the
whole store unchanged, and the ids it reports are exactly the ids of the batch that
have an enrollment row. -/
theorem addStudents_all_or_nothing (st : State) (actor : Actor) (classId : Nat)
    (ids : List Nat) (cls : Class)
    (hrole : actor.role = Role.teacher)
    (hcls : findClass st classId = some cls) (hown : cls.teacherId = actor.id)
    (hex : ∃ x ∈ ids, ∃ e ∈ st.enrollments, e.studentId = x) :
    (addStudents st actor classId (some ids)).1.status = 400 ∧
    (addStudents st actor classId (some ids)).2 = st ∧
    ∃ reported : List Nat,
      (addStudents st actor classId (some ids)).1.payload = Payload.enrolledStudents reported ∧
      ∀ x, x ∈ reported ↔ (x ∈ ids ∧ ∃ e ∈ st.enrollments, e.studentId = x) := by
  obtain ⟨x, hx, e, he, hxe⟩ := hex
  have hmem : e ∈ st.enrollments.filter (fun e => decide (e.studentId ∈ ids)) :=
    List.mem_filter.mpr ⟨he, by simpa [hxe] using hx⟩
  have hpos : (st.enrollments.filter (fun e => decide (e.studentId ∈ ids))).length > 0 :=
    List.length_pos_of_mem hmem
  simp only [addStudents, hrole, hcls, hown, ne_eq, not_true_eq_false, if_false, hpos, if_true]
  refine ⟨trivial, trivial, _, rfl, ?_⟩
  intro y
  simp only [List.mem_map, List.mem_filter, decide_eq_true_eq]
  constructor
  · rintro ⟨r, ⟨hr, hin⟩, rfl⟩
    exact ⟨hin, r, hr, rfl⟩
  · rintro ⟨hin, r, hr, rfl⟩
    exact ⟨r, ⟨hr, hin⟩, rfl⟩

/-- Witness for C7: student 5 is enrolled in class 1, and the batch [7, 5] is rejected
whole. -/
theorem addStudents_all_or_nothing_witness :
    (addStudents { store1 with enrollments := [⟨5, 1⟩] } teacherT 1 (some [7, 5])).1.status = 400 ∧
    (addStudents { store1 with enrollments := [⟨5, 1⟩] } teacherT 1 (some [7, 5])).2 =
      { store1 with enrollments := [⟨5, 1⟩] } ∧
    ∃ reported : List Nat,
      (addStudents { store1 with enrollments := [⟨5, 1⟩] } teacherT 1 (some [7, 5])).1.payload =
        Payload.enrolledStudents reported ∧
      ∀ x, x ∈ reported ↔
        (x ∈ [7, 5] ∧ ∃ e ∈ ({ store1 with enrollments := [⟨5, 1⟩] } : State).enrollments,
          e.studentId = x) :=
  addStudents_all_or_nothing { store1 with enrollments := [⟨5, 1⟩] } teacherT 1 [7, 5]
    ⟨1, "Algebra-1", none, 1⟩ rfl rfl rfl ⟨5, by decide, ⟨5, 1⟩, by decide, rfl⟩

/-- C10: the name of three spaces is empty after trimming and the teacher page refuses
it, yet the route createClass answers 201 and stores a class with that name. -/
theorem createClass_blank_name_accepted :
    jsTrim "   " = "" ∧
    pageCreateClass store1 teacherT "   " "" = none ∧
    (createClass store1 teacherT (some "   ") none).1.status = 201 ∧
    (createClass store1 teacherT (some "   ") none).2.classes =
      store1.classes ++ [⟨2, "   ", none, 1⟩] := by
  refine ⟨by decide, by decide, by decide, by decide⟩

/-! ## Theorems: the validation loop of assignGrades -/

theorem validateGrades_status (st : State) (classId : Nat) (entries : List GradeEntry)
    (r : Response) (h : validateGrades st classId entries = some r) :
    r.status = 400 := by
  induction entries with
  | nil => simp [validateGrades] at h
  | cons e rest ih =>
    unfold validateGrades at h
    split at h
    · split at h
      · cases h; rfl
      · split at h
        · cases h; rfl
        · split at h
          · cases h; rfl
          · exact ih h
    · cases h; rfl

theorem validateGrades_cons_valid (st : State) (classId : Nat) (e : GradeEntry)
    (rest : List GradeEntry) (he : EntryValid st classId e) :
    validateGrades st classId (e :: rest) = validateGrades st classId rest := by
  obtain ⟨s, g, hs, hs0, hg, h0, h100, henr⟩ := he
  rw [validateGrades.eq_2 st classId e rest]
  simp [hs, hg, hs0, henr, not_lt.mpr h0, not_lt.mpr h100]

theorem validateGrades_none_iff (st : State) (classId : Nat) (entries : List GradeEntry) :
    validateGrades st classId entries = none ↔ ∀ e ∈ entries, EntryValid st classId e := by
  induction entries with
  | nil => simp [validateGrades]
  | cons e rest ih =>
    constructor
    · intro h
      have hv : EntryValid st classId e := by
        unfold validateGrades at h
        split at h
        · rename_i s g hs hg
          split at h
          · cases h
          · split at h
            · cases h
            · split at h
              · cases h
              · rename_i h1 h2 h3
                refine ⟨s, g, hs, by simpa using h1, hg, ?_, ?_, by simpa using h3⟩
                · exact not_lt.mp (fun hh => h2 (Or.inl hh))
                · exact not_lt.mp (fun hh => h2 (Or.inr hh))
        · cases h
      rw [validateGrades_cons_valid st classId e rest hv] at h
      intro x hx
      rcases List.mem_cons.mp hx with rfl | hx
      · exact hv
      · exact ih.mp h x hx
    · intro h
      rw [validateGrades_cons_valid st classId e rest (h e (List.mem_cons_self _ _))]
      exact ih.mpr (fun x hx => h x (List.mem_cons_of_mem _ hx))

theorem entryInvalid_not_valid (st : State) (classId : Nat) (e : GradeEntry)
    (h : EntryInvalid st classId e) : ¬ EntryValid st classId e := by
  rintro ⟨s, g, hs, _, hg, h0, h100, henr⟩
  rcases h with h | h | ⟨g1, hg1, hr⟩ | ⟨s1, hs1, hn⟩
  · simp [hs] at h
  · simp [hg] at h
  · rw [hg] at hg1
    cases hg1
    rcases hr with hr | hr
    · exact absurd h0 (not_le.mpr hr)
    · exact absurd h100 (not_le.mpr hr)
  · rw [hs] at hs1
    cases hs1
    rw [henr] at hn
    cases hn

/-- C2: when the owning teacher calls assignGrades on an existing subject with a batch
in which some entry, at any position, fails validation (studentId or grade missing,
grade below 0 or above 100, student not enrolled in the subject's class), the answer is
400 and the store, the grade ledger included, is the one before the call. -/
theorem assignGrades_atomic (st : State) (actor : Actor) (sid : Nat)
    (entries : List GradeEntry) (subject : Subject) (cls : Class)
    (hrole : actor.role = Role.teacher)
    (hsub : findSubject st sid = some subject)
    (hcls : findClass st subject.classId = some cls)
    (hown : cls.teacherId = actor.id)
    (hbad : ∃ e ∈ entries, EntryInvalid st subject.classId e) :
    (assignGrades st actor (some sid) (some entries)).1.status = 400 ∧
    (assignGrades st actor (some sid) (some entries)).2.grades = st.grades ∧
    (assignGrades st actor (some sid) (some entries)).2 = st := by
  obtain ⟨e, he, hinv⟩ := hbad
  have hne : validateGrades st subject.classId entries ≠ none := by
    intro hnone
    exact entryInvalid_not_valid st _ e hinv
      ((validateGrades_none_iff st subject.classId entries).mp hnone e he)
  obtain ⟨r, hr⟩ := Option.ne_none_iff_exists'.mp hne
  have hst := validateGrades_status st subject.classId entries r hr
  by_cases h0 : sid = 0
  · simp [assignGrades, hrole, h0]
  · simp [assignGrades, hrole, h0, hsub, hcls, hown, hr, hst]

/-- Witness for C2: entry 3 of the five entries of `batch5` carries the grade 150; the
batch is refused and the ledger of `store2` is untouched. -/
theorem assignGrades_atomic_witness :
    (assignGrades store2 teacherT (some 1) (some batch5)).1.status = 400 ∧
    (assignGrades store2 teacherT (some 1) (some batch5)).2.grades = store2.grades ∧
    (assignGrades store2 teacherT (some 1) (some batch5)).2 = store2 :=
  assignGrades_atomic store2 teacherT 1 batch5 ⟨1, "Midterm", none, 1⟩ ⟨1, "Algebra-1", none, 1⟩
    rfl rfl rfl rfl
    ⟨⟨some 8, some 150, none, none⟩, by simp [batch5],
      Or.inr (Or.inr (Or.inl ⟨150, rfl, Or.inr (by norm_num)⟩))⟩

theorem validateGrades_skip_valid (st : State) (classId : Nat) (pre rest : List GradeEntry)
    (hpre : ∀ x ∈ pre, EntryValid st classId x) :
    validateGrades st classId (pre ++ rest) = validateGrades st classId rest := by
  induction pre with
  | nil => rfl
  | cons x xs ih =>
    rw [List.cons_append,
      validateGrades_cons_valid st classId x (xs ++ rest) (hpre x (List.mem_cons_self _ _))]
    exact ih (fun y hy => hpre y (List.mem_cons_of_mem _ hy))

theorem isEnrolled_iff (st : State) (s c : Nat) :
    isEnrolled st s c = true ↔ ∃ row ∈ st.enrollments, row.studentId = s ∧ row.classId = c := by
  simp [isEnrolled]

/-- The status of assignGrades is 201 only on the path that runs the validation loop to
its end. -/
theorem assignGrades_created (st : State) (actor : Actor) (sid : Nat)
    (entries : List GradeEntry)
    (h : (assignGrades st actor (some sid) (some entries)).1.status = 201) :
    ∃ subject cls, actor.role = Role.teacher ∧ sid ≠ 0 ∧ findSubject st sid = some subject ∧
      findClass st subject.classId = some cls ∧ cls.teacherId = actor.id ∧
      validateGrades st subject.classId entries = none := by
  simp only [assignGrades] at h
  split at h
  · simp [teacherRequired] at h
  · rename_i hrole
    split at h
    · simp at h
    · rename_i hsid
      split at h
      · simp at h
      · rename_i subject hsub
        split at h
        · simp [serverError] at h
        · rename_i cls hcls
          split at h
          · simp at h
          · rename_i hown
            split at h
            · rename_i r hr
              have := validateGrades_status st _ entries r hr
              simp only at h
              omega
            · rename_i hval
              exact ⟨subject, cls, by simpa using hrole, by simpa using hsid, hsub, hcls,
                by simpa using hown, hval⟩

/-- C8, counterexample: student 7 is not enrolled in class 1 and no entry precedes the
entry (7, 150), yet the 400 answer of assignGrades carries the range message, which
does not name student 7. -/
theorem assignGrades_range_before_enrollment :
    isEnrolled store2 7 1 = false ∧
    (assignGrades store2 teacherT (some 1) (some [⟨some 7, some 150, none, none⟩])).1 =
      ⟨400, "Grade must be between 0 and 100", Payload.none⟩ ∧
    "Grade must be between 0 and 100" ≠ notEnrolledMessage 7 := by
  refine ⟨by decide, ?_, by decide⟩
  have hsub : findSubject store2 1 = some ⟨1, "Midterm", none, 1⟩ := rfl
  have hcls : findClass store2 1 = some ⟨1, "Algebra-1", none, 1⟩ := rfl
  simp [assignGrades, teacherT, hsub, hcls, validateGrades]
  norm_num

/-- C8, amended: a successful assignGrades finds, for every entry, an enrollment row of
the entry's student in the class that owns the subject, in the store before the call;
and when the first entry that is not valid carries a studentId and a grade within
[0, 100] but its student is not enrolled in that class, the answer is the 400 response
whose message names that studentId, and the store is unchanged. -/
theorem assignGrades_requires_enrollment (st : State) (actor : Actor) (sid : Nat)
    (entries : List GradeEntry) :
    ((assignGrades st actor (some sid) (some entries)).1.status = 201 →
      ∃ subject, findSubject st sid = some subject ∧
        ∀ e ∈ entries, ∃ s, e.studentId = some s ∧
          ∃ row ∈ st.enrollments, row.studentId = s ∧ row.classId = subject.classId) ∧
    (∀ (subject : Subject) (cls : Class) (pre post : List GradeEntry) (e : GradeEntry)
        (s : Nat) (g : ℚ),
      actor.role = Role.teacher → sid ≠ 0 → findSubject st sid = some subject →
      findClass st subject.classId = some cls → cls.teacherId = actor.id →
      entries = pre ++ e :: post → (∀ x ∈ pre, EntryValid st subject.classId x) →
      e.studentId = some s → s ≠ 0 → e.grade = some g → 0 ≤ g → g ≤ 100 →
      isEnrolled st s subject.classId = false →
      assignGrades st actor (some sid) (some entries) =
        (⟨400, notEnrolledMessage s, Payload.none⟩, st)) := by
  constructor
  · intro h
    obtain ⟨subject, cls, _, _, hsub, _, _, hval⟩ := assignGrades_created st actor sid entries h
    refine ⟨subject, hsub, ?_⟩
    intro e he
    obtain ⟨s, g, hs, _, _, _, _, henr⟩ :=
      (validateGrades_none_iff st subject.classId entries).mp hval e he
    exact ⟨s, hs, (isEnrolled_iff st s subject.classId).mp henr⟩
  · intro subject cls pre post e s g hrole hsid hsub hcls hown hent hpre hs hs0 hg h0 h100 henr
    have hval : validateGrades st subject.classId entries =
        some ⟨400, notEnrolledMessage s, Payload.none⟩ := by
      rw [hent, validateGrades_skip_valid st subject.classId pre (e :: post) hpre,
        validateGrades.eq_2 st subject.classId e post]
      simp [hs, hg, hs0, henr, not_lt.mpr h0, not_lt.mpr h100]
    simp [assignGrades, hrole, hsid, hsub, hcls, hown, hval]

/-- Witness for C8: in `store2` the batch [(5, 90), (7, 50)] stops at student 7, who is
not enrolled in class 1. -/
theorem assignGrades_requires_enrollment_witness :
    assignGrades store2 teacherT (some 1)
        (some [⟨some 5, some 90, none, none⟩, ⟨some 7, some 50, none, none⟩]) =
      (⟨400, notEnrolledMessage 7, Payload.none⟩, store2) :=
  (assignGrades_requires_enrollment store2 teacherT 1
      [⟨some 5, some 90, none, none⟩, ⟨some 7, some 50, none, none⟩]).2
    ⟨1, "Midterm", none, 1⟩ ⟨1, "Algebra-1", none, 1⟩ [⟨some 5, some 90, none, none⟩] []
    ⟨some 7, some 50, none, none⟩ 7 50 rfl (by decide) rfl rfl rfl rfl
    (by
      intro x hx
      rw [List.mem_singleton] at hx
      subst hx
      exact ⟨5, 90, rfl, by decide, rfl, by norm_num, by norm_num, by decide⟩)
    rfl (by decide) rfl (by norm_num) (by norm_num) (by decide)

/-! ## Theorems: ownership -/

theorem createSubject_frame (st : State) (actor : Actor) (name description : Option String)
    (classId : Option Nat)
    (h : ¬ (actor.role = Role.teacher ∧ classId.bind (classTeacher st) = some actor.id)) :
    (createSubject st actor name description classId).2 = st := by
  simp only [createSubject]
  repeat' split
  all_goals first
    | rfl
    | (exfalso; apply h; simp_all [classTeacher])

theorem updateSubject_frame (st : State) (actor : Actor) (id : Nat) (name : Option String)
    (description : Option (Option String))
    (h : ¬ (actor.role = Role.teacher ∧ subjectTeacher st id = some actor.id)) :
    (updateSubject st actor id name description).2 = st := by
  simp only [updateSubject]
  repeat' split
  all_goals first
    | rfl
    | (exfalso; apply h; simp_all [subjectTeacher, classTeacher])

theorem deleteSubject_frame (st : State) (actor : Actor) (id : Nat)
    (h : ¬ (actor.role = Role.teacher ∧ subjectTeacher st id = some actor.id)) :
    (deleteSubject st actor id).2 = st := by
  simp only [deleteSubject]
  repeat' split
  all_goals first
    | rfl
    | (exfalso; apply h; simp_all [subjectTeacher, classTeacher])

theorem assignGrades_frame (st : State) (actor : Actor) (subjectId : Option Nat)
    (grades : Option (List GradeEntry))
    (h : ¬ (actor.role = Role.teacher ∧ subjectId.bind (subjectTeacher st) = some actor.id)) :
    (assignGrades st actor subjectId grades).2 = st := by
  simp only [assignGrades]
  repeat' split
  all_goals first
    | rfl
    | (exfalso; apply h; simp_all [subjectTeacher, classTeacher])

theorem updateGrade_frame (st : State) (actor : Actor) (id : Nat) (grade : Option ℚ)
    (assignment comments : Option (Option String))
    (h : ¬ (actor.role = Role.teacher ∧ gradeOwner st id = some actor.id)) :
    (updateGrade st actor id grade assignment comments).2 = st := by
  simp only [updateGrade]
  repeat' split
  all_goals first
    | rfl
    | (exfalso; apply h; simp_all [gradeOwner])

theorem deleteGrade_frame (st : State) (actor : Actor) (id : Nat)
    (h : ¬ (actor.role = Role.teacher ∧ gradeOwner st id = some actor.id)) :
    (deleteGrade st actor id).2 = st := by
  simp only [deleteGrade]
  repeat' split
  all_goals first
    | rfl
    | (exfalso; apply h; simp_all [gradeOwner])

/-- C4: for createSubject, updateSubject, deleteSubject, assignGrades, updateGrade and
deleteGrade, when the actor is not the teacher whose id is the teacherId of the class
that owns the target (the class, the subject's class, the grade's subject's class),
the subject store and the grade ledger after the call are those before the call. -/
theorem only_owner_mutates (st : State) (actor : Actor) :
    (∀ name description classId,
      ¬ (actor.role = Role.teacher ∧ classId.bind (classTeacher st) = some actor.id) →
      (createSubject st actor name description classId).2.subjects = st.subjects ∧
      (createSubject st actor name description classId).2.grades = st.grades) ∧
    (∀ id name description,
      ¬ (actor.role = Role.teacher ∧ subjectTeacher st id = some actor.id) →
      (updateSubject st actor id name description).2.subjects = st.subjects ∧
      (updateSubject st actor id name description).2.grades = st.grades) ∧
    (∀ id,
      ¬ (actor.role = Role.teacher ∧ subjectTeacher st id = some actor.id) →
      (deleteSubject st actor id).2.subjects = st.subjects ∧
      (deleteSubject st actor id).2.grades = st.grades) ∧
    (∀ subjectId grades,
      ¬ (actor.role = Role.teacher ∧ subjectId.bind (subjectTeacher st) = some actor.id) →
      (assignGrades st actor subjectId grades).2.subjects = st.subjects ∧
      (assignGrades st actor subjectId grades).2.grades = st.grades) ∧
    (∀ id grade assignment comments,
      ¬ (actor.role = Role.teacher ∧ gradeOwner st id = some actor.id) →
      (updateGrade st actor id grade assignment comments).2.subjects = st.subjects ∧
      (updateGrade st actor id grade assignment comments).2.grades = st.grades) ∧
    (∀ id,
      ¬ (actor.role = Role.teacher ∧ gradeOwner st id = some actor.id) →
      (deleteGrade st actor id).2.subjects = st.subjects ∧
      (deleteGrade st actor id).2.grades = st.grades) := by
  refine ⟨?_, ?_, ?_, ?_, ?_, ?_⟩
  · intro n d c h
    rw [createSubject_frame st actor n d c h]
    exact ⟨rfl, rfl⟩
  · intro i n d h
    rw [updateSubject_frame st actor i n d h]
    exact ⟨rfl, rfl⟩
  · intro i h
    rw [deleteSubject_frame st actor i h]
    exact ⟨rfl, rfl⟩
  · intro sid g h
    rw [assignGrades_frame st actor sid g h]
    exact ⟨rfl, rfl⟩
  · intro i g a c h
    rw [updateGrade_frame st actor i g a c h]
    exact ⟨rfl, rfl⟩
  · intro i h
    rw [deleteGrade_frame st actor i h]
    exact ⟨rfl, rfl⟩

/-- C5, counterexample: class 1 exists and belongs to teacher 1; teacher 2 calls
createSubject on it with a valid body and receives 404, not 403. -/
theorem createSubject_other_teacher_404 :
    classTeacher store1 1 = some 1 ∧ teacherT2.role = Role.teacher ∧ teacherT2.id ≠ 1 ∧
    (createSubject store1 teacherT2 (some "Midterm") none (some 1)).1 =
      ⟨404, "Class not found or access denied", Payload.none⟩ ∧
    (createSubject store1 teacherT2 (some "Midterm") none (some 1)).1.status ≠ 403 := by
  refine ⟨by decide, by decide, by decide, by decide, by decide⟩

/-- C5, amended: an actor whose role is not teacher (a student in particular) receives
403 from each of the six mutations; a teacher other than the owner of the target's
class receives 403 from updateSubject, deleteSubject, assignGrades, updateGrade (with a
grade within [0, 100]) and deleteGrade when the target and its chain exist; from
createSubject with a valid body on an existing class that teacher receives the combined
404 answer. -/
theorem non_owner_denied (st : State) (actor : Actor) :
    (actor.role ≠ Role.teacher →
      (∀ n d c, (createSubject st actor n d c).1.status = 403) ∧
      (∀ i n d, (updateSubject st actor i n d).1.status = 403) ∧
      (∀ i, (deleteSubject st actor i).1.status = 403) ∧
      (∀ sid g, (assignGrades st actor sid g).1.status = 403) ∧
      (∀ i g a c, (updateGrade st actor i g a c).1.status = 403) ∧
      (∀ i, (deleteGrade st actor i).1.status = 403)) ∧
    (actor.role = Role.teacher →
      (∀ i n d t, subjectTeacher st i = some t → t ≠ actor.id →
        (updateSubject st actor i n d).1.status = 403) ∧
      (∀ i t, subjectTeacher st i = some t → t ≠ actor.id →
        (deleteSubject st actor i).1.status = 403) ∧
      (∀ sid entries t, sid ≠ 0 → subjectTeacher st sid = some t → t ≠ actor.id →
        (assignGrades st actor (some sid) (some entries)).1.status = 403) ∧
      (∀ i g a c t, 0 ≤ g → g ≤ 100 → gradeOwner st i = some t → t ≠ actor.id →
        (updateGrade st actor i (some g) a c).1.status = 403) ∧
      (∀ i t, gradeOwner st i = some t → t ≠ actor.id →
        (deleteGrade st actor i).1.status = 403) ∧
      (∀ n d c t, n ≠ "" → c ≠ 0 → classTeacher st c = some t → t ≠ actor.id →
        (createSubject st actor (some n) d (some c)).1.status = 404)) := by
  constructor
  · intro hrole
    refine ⟨?_, ?_, ?_, ?_, ?_, ?_⟩ <;> intros <;>
      simp [createSubject, updateSubject, deleteSubject, assignGrades, updateGrade,
        deleteGrade, hrole, teacherRequired]
  · intro hrole
    refine ⟨?_, ?_, ?_, ?_, ?_, ?_⟩
    · intro i n d t ht hne
      simp only [subjectTeacher, classTeacher] at ht
      cases hs : findSubject st i with
      | none => simp [hs] at ht
      | some subject =>
        cases hc : findClass st subject.classId with
        | none => simp [hs, hc] at ht
        | some cls =>
          have : cls.teacherId = t := by simpa [hs, hc] using ht
          simp [updateSubject, hrole, hs, hc, this, hne]
    · intro i t ht hne
      simp only [subjectTeacher, classTeacher] at ht
      cases hs : findSubject st i with
      | none => simp [hs] at ht
      | some subject =>
        cases hc : findClass st subject.classId with
        | none => simp [hs, hc] at ht
        | some cls =>
          have : cls.teacherId = t := by simpa [hs, hc] using ht
          simp [deleteSubject, hrole, hs, hc, this, hne]
    · intro sid entries t hsid ht hne
      simp only [subjectTeacher, classTeacher] at ht
      cases hs : findSubject st sid with
      | none => simp [hs] at ht
      | some subject =>
        cases hc : findClass st subject.classId with
        | none => simp [hs, hc] at ht
        | some cls =>
          have : cls.teacherId = t := by simpa [hs, hc] using ht
          simp [assignGrades, hrole, hsid, hs, hc, this, hne]
    · intro i g a c t h0 h100 ht hne
      simp only [gradeOwner] at ht
      cases hg : findGrade st i with
      | none => simp [hg] at ht
      | some rec =>
        have hgt : gradeTeacher st rec = some t := by simpa [hg] using ht
        simp [updateGrade, hrole, hg, hgt, hne, not_lt.mpr h0, not_lt.mpr h100]
    · intro i t ht hne
      simp only [gradeOwner] at ht
      cases hg : findGrade st i with
      | none => simp [hg] at ht
      | some rec =>
        have hgt : gradeTeacher st rec = some t := by simpa [hg] using ht
        simp [deleteGrade, hrole, hg, hgt, hne]
    · intro n d c t hn hc0 ht hne
      simp only [classTeacher] at ht
      cases hc : findClass st c with
      | none => simp [hc] at ht
      | some cls =>
        have : cls.teacherId = t := by simpa [hc] using ht
        simp [createSubject, hrole, hn, hc0, hc, this, hne]

/-- Witness for C5: in `store2` the student 5 and the teacher 2 are refused with 403
when they try to delete subject 1 of teacher 1. -/
theorem non_owner_denied_witness :
    (deleteSubject store2 studentS 1).1.status = 403 ∧
    (deleteSubject store2 teacherT2 1).1.status = 403 :=
  ⟨((non_owner_denied store2 studentS).1 (by decide)).2.2.1 1,
   ((non_owner_denied store2 teacherT2).2 rfl).2.1 1 1 (by decide) (by decide)⟩

/-! ## Theorems: grade range -/

theorem upsertGrade_range (acc : List Grade × Nat) (v : GradeValues)
    (hacc : ∀ g ∈ acc.1, 0 ≤ g.grade ∧ g.grade ≤ 100) (hv : 0 ≤ v.grade ∧ v.grade ≤ 100) :
    ∀ g ∈ (upsertGrade acc v).1, 0 ≤ g.grade ∧ g.grade ≤ 100 := by
  intro g hg
  unfold upsertGrade at hg
  split at hg
  · obtain ⟨r, hr, rfl⟩ := List.mem_map.mp hg
    split
    · exact hv
    · exact hacc r hr
  · rcases List.mem_append.mp hg with h | h
    · exact hacc g h
    · rw [List.mem_singleton] at h
      subst h
      exact hv

theorem bulkUpsertGrades_range (vs : List GradeValues) (gs : List Grade) (next : Nat)
    (hgs : ∀ g ∈ gs, 0 ≤ g.grade ∧ g.grade ≤ 100)
    (hvs : ∀ v ∈ vs, 0 ≤ v.grade ∧ v.grade ≤ 100) :
    ∀ g ∈ (bulkUpsertGrades gs next vs).1, 0 ≤ g.grade ∧ g.grade ≤ 100 := by
  induction vs generalizing gs next with
  | nil => simpa [bulkUpsertGrades] using hgs
  | cons v rest ih =>
    have h1 := upsertGrade_range (gs, next) v hgs (hvs v (List.mem_cons_self _ _))
    have := ih (upsertGrade (gs, next) v).1 (upsertGrade (gs, next) v).2 h1
      (fun w hw => hvs w (List.mem_cons_of_mem _ hw))
    simpa [bulkUpsertGrades] using this

theorem toGradeValues_range (st : State) (classId sid : Nat) (e : GradeEntry)
    (he : EntryValid st classId e) :
    0 ≤ (toGradeValues sid e).grade ∧ (toGradeValues sid e).grade ≤ 100 := by
  obtain ⟨s, g, _, _, hg, h0, h100, _⟩ := he
  simp [toGradeValues, hg, h0, h100]

theorem assignGrades_range (st : State) (actor : Actor) (subjectId : Option Nat)
    (grades : Option (List GradeEntry)) (hst : GradesInRange st) :
    GradesInRange (assignGrades st actor subjectId grades).2 := by
  simp only [assignGrades]
  repeat' split
  all_goals first
    | exact hst
    | skip
  rename_i subject _ _ _ _ _ _ hval
  unfold GradesInRange
  apply bulkUpsertGrades_range _ _ _ hst
  intro v hv
  obtain ⟨e, he, rfl⟩ := List.mem_map.mp hv
  exact toGradeValues_range st subject.classId _ e
    ((validateGrades_none_iff st subject.classId _).mp hval e he)

theorem updateGrade_range (st : State) (actor : Actor) (id : Nat) (grade : Option ℚ)
    (assignment comments : Option (Option String)) (hst : GradesInRange st) :
    GradesInRange (updateGrade st actor id grade assignment comments).2 := by
  simp only [updateGrade]
  repeat' split
  all_goals first
    | exact hst
    | skip
  rename_i g hg _ _ _ _ _ _ _
  intro r hr
  obtain ⟨r0, hr0, rfl⟩ := List.mem_map.mp hr
  split
  · exact ⟨not_lt.mp (fun h => hg (Or.inl h)), not_lt.mp (fun h => hg (Or.inr h))⟩
  · exact hst r0 hr0

theorem handle_range (st : State) (actor : Actor) (req : Request) (hst : GradesInRange st) :
    GradesInRange (handle st actor req).2 := by
  cases req with
  | createClass n d =>
    simp only [handle, createClass]
    repeat' split
    all_goals exact hst
  | addStudents c ids =>
    simp only [handle]
    rcases addStudents_outcome st actor c ids with ⟨_, heq⟩ | ⟨l, _, _, _, _, _, heq⟩ <;>
      (rw [heq]; exact hst)
  | removeStudent c s =>
    simp only [handle, removeStudent]
    repeat' split
    all_goals exact hst
  | createSubject n d c =>
    simp only [handle, createSubject]
    repeat' split
    all_goals exact hst
  | updateSubject i n d =>
    simp only [handle, updateSubject]
    repeat' split
    all_goals exact hst
  | deleteSubject i =>
    simp only [handle, deleteSubject]
    repeat' split
    all_goals first
      | exact hst
      | exact fun g hg => hst g (List.mem_of_mem_filter hg)
  | assignGrades sid g => exact assignGrades_range st actor sid g hst
  | updateGrade i g a c => exact updateGrade_range st actor i g a c hst
  | deleteGrade i =>
    simp only [handle, deleteGrade]
    repeat' split
    all_goals first
      | exact hst
      | exact fun g hg => hst g (List.mem_of_mem_filter hg)

theorem reachable_range (s0 s : State) (h0 : GradesInRange s0) (hr : Reachable s0 s) :
    GradesInRange s := by
  induction hr with
  | refl => exact h0
  | step s actor req _ ih => exact handle_range s actor req ih

theorem updateGrade_status_of_range (st : State) (actor : Actor) (id : Nat) (g : ℚ)
    (a c : Option (Option String)) (hrole : actor.role = Role.teacher)
    (hown : gradeOwner st id = some actor.id) (h0 : 0 ≤ g) (h100 : g ≤ 100) :
    (updateGrade st actor id (some g) a c).1.status = 200 := by
  simp only [gradeOwner] at hown
  cases hg : findGrade st id with
  | none => simp [hg] at hown
  | some rec =>
    have hgt : gradeTeacher st rec = some actor.id := by simpa [hg] using hown
    simp [updateGrade, hrole, hg, hgt, not_lt.mpr h0, not_lt.mpr h100]

theorem updateGrade_status_out_of_range (st : State) (actor : Actor) (id : Nat) (g : ℚ)
    (a c : Option (Option String)) (hrole : actor.role = Role.teacher)
    (hg : g < 0 ∨ g > 100) :
    (updateGrade st actor id (some g) a c).1.status = 400 ∧
    (updateGrade st actor id (some g) a c).2 = st := by
  simp [updateGrade, hrole, hg]

theorem assignGrades_single_status (st : State) (actor : Actor) (sid s : Nat) (g : ℚ)
    (a c : Option String) (subject : Subject) (cls : Class)
    (hrole : actor.role = Role.teacher) (hsid : sid ≠ 0)
    (hsub : findSubject st sid = some subject)
    (hcls : findClass st subject.classId = some cls) (hown : cls.teacherId = actor.id)
    (hs : s ≠ 0) (henr : isEnrolled st s subject.classId = true) :
    (0 ≤ g → g ≤ 100 →
      (assignGrades st actor (some sid) (some [⟨some s, some g, a, c⟩])).1.status = 201) ∧
    (g < 0 ∨ g > 100 →
      (assignGrades st actor (some sid) (some [⟨some s, some g, a, c⟩])).1.status = 400 ∧
      (assignGrades st actor (some sid) (some [⟨some s, some g, a, c⟩])).2 = st) := by
  constructor
  · intro h0 h100
    simp [assignGrades, hrole, hsid, hsub, hcls, hown, validateGrades, hs, henr,
      not_lt.mpr h0, not_lt.mpr h100]
  · intro hg
    simp [assignGrades, hrole, hsid, hsub, hcls, hown, validateGrades, hs, hg]

/-- C3: a successful assignGrades has only grades within [0, 100] in its batch and a
successful updateGrade carries a grade within [0, 100]; from a ledger whose grades are
all within [0, 100], every store reachable by any sequence of requests has all its
grades within [0, 100]; and for the owner of the target the grades 0 and 100 are
accepted while 100.01 and -0.01 are answered with 400 and no change. -/
theorem grade_range_invariant :
    (∀ st actor sid entries,
      (assignGrades st actor sid (some entries)).1.status = 201 →
      ∀ e ∈ entries, ∃ g, e.grade = some g ∧ 0 ≤ g ∧ g ≤ 100) ∧
    (∀ st actor id grade a c,
      (updateGrade st actor id grade a c).1.status = 200 →
      ∃ g, grade = some g ∧ 0 ≤ g ∧ g ≤ 100) ∧
    (∀ s0 s, GradesInRange s0 → Reachable s0 s → GradesInRange s) ∧
    (∀ st actor id a c, actor.role = Role.teacher → gradeOwner st id = some actor.id →
      (updateGrade st actor id (some 0) a c).1.status = 200 ∧
      (updateGrade st actor id (some 100) a c).1.status = 200) ∧
    (∀ st actor id a c, actor.role = Role.teacher →
      (updateGrade st actor id (some 100.01) a c).1.status = 400 ∧
      (updateGrade st actor id (some 100.01) a c).2 = st ∧
      (updateGrade st actor id (some (-0.01)) a c).1.status = 400 ∧
      (updateGrade st actor id (some (-0.01)) a c).2 = st) ∧
    (∀ st actor sid s a c subject cls, actor.role = Role.teacher → sid ≠ 0 →
      findSubject st sid = some subject → findClass st subject.classId = some cls →
      cls.teacherId = actor.id → s ≠ 0 → isEnrolled st s subject.classId = true →
      (assignGrades st actor (some sid) (some [⟨some s, some 0, a, c⟩])).1.status = 201 ∧
      (assignGrades st actor (some sid) (some [⟨some s, some 100, a, c⟩])).1.status = 201 ∧
      (assignGrades st actor (some sid) (some [⟨some s, some 100.01, a, c⟩])).1.status = 400 ∧
      (assignGrades st actor (some sid) (some [⟨some s, some 100.01, a, c⟩])).2 = st ∧
      (assignGrades st actor (some sid) (some [⟨some s, some (-0.01), a, c⟩])).1.status = 400 ∧
      (assignGrades st actor (some sid) (some [⟨some s, some (-0.01), a, c⟩])).2 = st) := by
  refine ⟨?_, ?_, ?_, ?_, ?_, ?_⟩
  · intro st actor sid entries h e he
    cases sid with
    | none =>
      simp only [assignGrades] at h
      split at h <;> simp [teacherRequired] at h
    | some sid =>
      obtain ⟨subject, _, _, _, _, _, _, hval⟩ := assignGrades_created st actor sid entries h
      obtain ⟨_, g, _, _, hg, h0, h100, _⟩ :=
        (validateGrades_none_iff st subject.classId entries).mp hval e he
      exact ⟨g, hg, h0, h100⟩
  · intro st actor id grade a c h
    simp only [updateGrade] at h
    split at h
    · simp [teacherRequired] at h
    · split at h
      · simp at h
      · rename_i g
        split at h
        · simp at h
        · rename_i hg
          exact ⟨g, rfl, not_lt.mp (fun hh => hg (Or.inl hh)),
            not_lt.mp (fun hh => hg (Or.inr hh))⟩
  · exact reachable_range
  · intro st actor id a c hrole hown
    exact ⟨updateGrade_status_of_range st actor id 0 a c hrole hown (by norm_num) (by norm_num),
      updateGrade_status_of_range st actor id 100 a c hrole hown (by norm_num) (by norm_num)⟩
  · intro st actor id a c hrole
    have h1 := updateGrade_status_out_of_range st actor id 100.01 a c hrole
      (Or.inr (by norm_num))
    have h2 := updateGrade_status_out_of_range st actor id (-0.01) a c hrole
      (Or.inl (by norm_num))
    exact ⟨h1.1, h1.2, h2.1, h2.2⟩
  · intro st actor sid s a c subject cls hrole hsid hsub hcls hown hs henr
    have h (g : ℚ) := assignGrades_single_status st actor sid s g a c subject cls hrole hsid
      hsub hcls hown hs henr
    have h1 := (h 100.01).2 (Or.inr (by norm_num))
    have h2 := (h (-0.01)).2 (Or.inl (by norm_num))
    exact ⟨(h 0).1 (by norm_num) (by norm_num), (h 100).1 (by norm_num) (by norm_num),
      h1.1, h1.2, h2.1, h2.2⟩

/-- Witness for C3: in `store2`, whose ledger is empty, teacher 1 grades the enrolled
student 5 in subject 1: the grades 0 and 100 are accepted and 100.01 and -0.01 are
refused without change. -/
theorem grade_range_invariant_witness :
    (assignGrades store2 teacherT (some 1) (some [⟨some 5, some 0, none, none⟩])).1.status = 201 ∧
    (assignGrades store2 teacherT (some 1) (some [⟨some 5, some 100, none, none⟩])).1.status = 201 ∧
    (assignGrades store2 teacherT (some 1) (some [⟨some 5, some 100.01, none, none⟩])).1.status
      = 400 ∧
    (assignGrades store2 teacherT (some 1) (some [⟨some 5, some 100.01, none, none⟩])).2 = store2 ∧
    (assignGrades store2 teacherT (some 1) (some [⟨some 5, some (-0.01), none, none⟩])).1.status
      = 400 ∧
    (assignGrades store2 teacherT (some 1) (some [⟨some 5, some (-0.01), none, none⟩])).2 = store2 :=
  grade_range_invariant.2.2.2.2.2 store2 teacherT 1 5 none none ⟨1, "Midterm", none, 1⟩
    ⟨1, "Algebra-1", none, 1⟩ rfl (by decide) rfl rfl rfl (by decide) (by decide)

/-! ## Theorems: the upsert of assignGrades -/

theorem sameGradeKey_iff (g : Grade) (v : GradeValues) :
    sameGradeKey g v = true ↔ g.studentId = v.studentId ∧ g.subjectId = v.subjectId := by
  simp [sameGradeKey]

theorem upsertGrade_other_key (acc : List Grade × Nat) (v : GradeValues) (row : Grade)
    (h : ¬ (row.studentId = v.studentId ∧ row.subjectId = v.subjectId)) :
    row ∈ (upsertGrade acc v).1 ↔ row ∈ acc.1 := by
  unfold upsertGrade
  split
  · simp only [List.mem_map]
    constructor
    · rintro ⟨r, hr, hrow⟩
      by_cases hk : sameGradeKey r v = true
      · rw [if_pos hk] at hrow
        exfalso
        apply h
        rw [← hrow]
        exact (sameGradeKey_iff r v).mp hk
      · rw [if_neg hk] at hrow
        rw [← hrow]
        exact hr
    · intro hr
      refine ⟨row, hr, ?_⟩
      rw [if_neg]
      rw [sameGradeKey_iff]
      exact h
  · simp only [List.mem_append, List.mem_singleton]
    constructor
    · rintro (hr | hr)
      · exact hr
      · exfalso
        apply h
        rw [hr]
        exact ⟨rfl, rfl⟩
    · intro hr
      exact Or.inl hr

theorem upsertGrade_key_values (acc : List Grade × Nat) (v : GradeValues) :
    (∃ row ∈ (upsertGrade acc v).1, sameGradeKey row v = true) ∧
    ∀ row ∈ (upsertGrade acc v).1, sameGradeKey row v = true →
      row.grade = v.grade ∧ row.assignment = v.assignment ∧ row.comments = v.comments := by
  unfold upsertGrade
  split
  · rename_i hany
    obtain ⟨r, hr, hk⟩ := List.any_eq_true.mp hany
    constructor
    · refine ⟨_, List.mem_map.mpr ⟨r, hr, rfl⟩, ?_⟩
      rw [if_pos hk]
      simpa [sameGradeKey] using hk
    · intro row hrow hkey
      obtain ⟨r0, _, rfl⟩ := List.mem_map.mp hrow
      by_cases hk0 : sameGradeKey r0 v = true
      · rw [if_pos hk0]
        exact ⟨rfl, rfl, rfl⟩
      · rw [if_neg hk0] at hkey
        exact absurd hkey hk0
  · rename_i hany
    constructor
    · refine ⟨_, List.mem_append_right _ (List.mem_singleton_self _), ?_⟩
      simp [sameGradeKey]
    · intro row hrow hkey
      rcases List.mem_append.mp hrow with h | h
      · exact absurd (List.any_eq_true.mpr ⟨row, h, hkey⟩) hany
      · rw [List.mem_singleton] at h
        subst h
        exact ⟨rfl, rfl, rfl⟩

theorem upsertGrade_keyUnique (acc : List Grade × Nat) (v : GradeValues)
    (h : GradeKeyUnique acc.1) : GradeKeyUnique (upsertGrade acc v).1 := by
  unfold upsertGrade
  split
  · unfold GradeKeyUnique at *
    have hmap : List.map (fun g : Grade => (g.studentId, g.subjectId))
        (List.map (fun g => if sameGradeKey g v = true then
          { g with grade := v.grade, assignment := v.assignment, comments := v.comments }
          else g) acc.1) = List.map (fun g : Grade => (g.studentId, g.subjectId)) acc.1 := by
      rw [List.map_map]
      apply List.map_congr_left
      intro g _
      simp only [Function.comp]
      split <;> rfl
    rw [hmap]
    exact h
  · rename_i hany
    unfold GradeKeyUnique at *
    rw [List.map_append, List.nodup_append]
    refine ⟨h, by simp, ?_⟩
    intro k hk hk2
    obtain ⟨r, hr, rfl⟩ := List.mem_map.mp hk
    simp only [List.map_cons, List.map_nil, List.mem_singleton, Prod.mk.injEq] at hk2
    exact hany (List.any_eq_true.mpr ⟨r, hr, (sameGradeKey_iff r v).mpr hk2⟩)

theorem bulkUpsertGrades_cons (gs : List Grade) (next : Nat) (v : GradeValues)
    (vs : List GradeValues) :
    bulkUpsertGrades gs next (v :: vs) =
      bulkUpsertGrades (upsertGrade (gs, next) v).1 (upsertGrade (gs, next) v).2 vs := by
  simp [bulkUpsertGrades]

theorem bulkUpsertGrades_keyUnique (vs : List GradeValues) (gs : List Grade) (next : Nat)
    (h : GradeKeyUnique gs) : GradeKeyUnique (bulkUpsertGrades gs next vs).1 := by
  induction vs generalizing gs next with
  | nil => simpa [bulkUpsertGrades] using h
  | cons v rest ih =>
    rw [bulkUpsertGrades_cons]
    exact ih _ _ (upsertGrade_keyUnique (gs, next) v h)

theorem bulkUpsertGrades_other_key (vs : List GradeValues) (gs : List Grade) (next : Nat)
    (row : Grade)
    (h : ∀ v ∈ vs, ¬ (row.studentId = v.studentId ∧ row.subjectId = v.subjectId)) :
    row ∈ (bulkUpsertGrades gs next vs).1 ↔ row ∈ gs := by
  induction vs generalizing gs next with
  | nil => simp [bulkUpsertGrades]
  | cons v rest ih =>
    rw [bulkUpsertGrades_cons, ih _ _ (fun w hw => h w (List.mem_cons_of_mem _ hw))]
    exact upsertGrade_other_key (gs, next) v row (h v (List.mem_cons_self _ _))

theorem bulkUpsertGrades_keeps_values (post : List GradeValues) (gs : List Grade) (next : Nat)
    (v : GradeValues) (hgs : CarriesValues gs v)
    (hpost : ∀ w ∈ post, ¬ (w.studentId = v.studentId ∧ w.subjectId = v.subjectId)) :
    CarriesValues (bulkUpsertGrades gs next post).1 v := by
  induction post generalizing gs next with
  | nil => simpa [bulkUpsertGrades] using hgs
  | cons w rest ih =>
    rw [bulkUpsertGrades_cons]
    apply ih _ _ _ (fun x hx => hpost x (List.mem_cons_of_mem _ hx))
    have hw := hpost w (List.mem_cons_self _ _)
    have hother : ∀ row : Grade, sameGradeKey row v = true →
        (row ∈ (upsertGrade (gs, next) w).1 ↔ row ∈ gs) := by
      intro row hk
      apply upsertGrade_other_key
      rw [sameGradeKey_iff] at hk
      intro hrw
      exact hw ⟨hrw.1.symm.trans hk.1, hrw.2.symm.trans hk.2⟩
    obtain ⟨⟨r, hr, hk⟩, hall⟩ := hgs
    exact ⟨⟨r, (hother r hk).mpr hr, hk⟩,
      fun row hrow hkey => hall row ((hother row hkey).mp hrow) hkey⟩

theorem bulkUpsertGrades_last_wins (pre post : List GradeValues) (gs : List Grade) (next : Nat)
    (v : GradeValues)
    (hpost : ∀ w ∈ post, ¬ (w.studentId = v.studentId ∧ w.subjectId = v.subjectId)) :
    CarriesValues (bulkUpsertGrades gs next (pre ++ v :: post)).1 v := by
  have hsplit : bulkUpsertGrades gs next (pre ++ v :: post) =
      bulkUpsertGrades (upsertGrade (bulkUpsertGrades gs next pre) v).1
        (upsertGrade (bulkUpsertGrades gs next pre) v).2 post := by
    simp [bulkUpsertGrades, List.foldl_append]
  rw [hsplit]
  exact bulkUpsertGrades_keeps_values post _ _ v (upsertGrade_key_values _ v) hpost

theorem rowsFor_singleton (gs : List Grade) (row : Grade) (hkey : GradeKeyUnique gs)
    (hrow : row ∈ gs) : rowsFor gs row.studentId row.subjectId = [row] := by
  induction gs with
  | nil => cases hrow
  | cons g rest ih =>
    unfold GradeKeyUnique at hkey
    rw [List.map_cons, List.nodup_cons] at hkey
    obtain ⟨hnot, hrest⟩ := hkey
    have hnone : ∀ r ∈ rest, ¬ (r.studentId = g.studentId ∧ r.subjectId = g.subjectId) := by
      intro r hr hk
      apply hnot
      refine List.mem_map.mpr ⟨r, hr, ?_⟩
      simp [hk.1, hk.2]
    rcases List.mem_cons.mp hrow with rfl | hin
    · have hempty : rowsFor rest row.studentId row.subjectId = [] := by
        unfold rowsFor
        rw [List.filter_eq_nil_iff]
        intro r hr
        simpa using hnone r hr
      have hcons : rowsFor (row :: rest) row.studentId row.subjectId =
          row :: rowsFor rest row.studentId row.subjectId := by
        simp [rowsFor]
      rw [hcons, hempty]
    · have hg : ¬ (g.studentId = row.studentId ∧ g.subjectId = row.subjectId) := by
        intro hk
        exact hnone row hin ⟨hk.1.symm, hk.2.symm⟩
      have hcons : rowsFor (g :: rest) row.studentId row.subjectId =
          rowsFor rest row.studentId row.subjectId := by
        unfold rowsFor
        rw [List.filter_cons_of_neg]
        simpa using hg
      rw [hcons]
      exact ih hrest hin

theorem exists_last (entries : List GradeEntry) (s : Nat)
    (h : ∃ e ∈ entries, e.studentId = some s) :
    ∃ pre e post, entries = pre ++ e :: post ∧ e.studentId = some s ∧
      ∀ x ∈ post, x.studentId ≠ some s := by
  induction entries with
  | nil =>
    obtain ⟨e, he, _⟩ := h
    cases he
  | cons a rest ih =>
    by_cases hrest : ∃ e ∈ rest, e.studentId = some s
    · obtain ⟨pre, e, post, heq, hs, hpost⟩ := ih hrest
      exact ⟨a :: pre, e, post, by rw [heq, List.cons_append], hs, hpost⟩
    · obtain ⟨e, he, hs⟩ := h
      rcases List.mem_cons.mp he with rfl | he
      · exact ⟨[], e, rest, rfl, hs, fun x hx hxs => hrest ⟨x, hx, hxs⟩⟩
      · exact absurd ⟨e, he, hs⟩ hrest

theorem assignGrades_of_valid (st : State) (actor : Actor) (sid : Nat)
    (entries : List GradeEntry) (subject : Subject) (cls : Class)
    (hrole : actor.role = Role.teacher) (hsid : sid ≠ 0)
    (hsub : findSubject st sid = some subject)
    (hcls : findClass st subject.classId = some cls) (hown : cls.teacherId = actor.id)
    (hval : validateGrades st subject.classId entries = none) :
    assignGrades st actor (some sid) (some entries) =
      (⟨201, "Grades assigned successfully",
          Payload.gradeEntries (entries.map (toGradeValues sid))⟩,
        { st with
          grades := (bulkUpsertGrades st.grades st.nextGradeId
            (entries.map (toGradeValues sid))).1,
          nextGradeId := (bulkUpsertGrades st.grades st.nextGradeId
            (entries.map (toGradeValues sid))).2 }) := by
  simp [assignGrades, hrole, hsid, hsub, hcls, hown, hval]

/-- C9, counterexample: the single entry (student 5, grade 90, assignment "") is
written to the empty ledger of `store2` as a row whose assignment is null, not the
empty string of the entry. -/
theorem assignGrades_empty_label_null :
    (assignGrades store2 teacherT (some 1) (some [⟨some 5, some 90, some "", none⟩])).1.status
      = 201 ∧
    (assignGrades store2 teacherT (some 1) (some [⟨some 5, some 90, some "", none⟩])).2.grades
      = [⟨1, 5, 1, 90, none, none⟩] ∧
    (none : Option String) ≠ some "" := by
  have hval : validateGrades store2 1 [⟨some 5, some 90, some "", none⟩] = none := by
    rw [validateGrades_none_iff]
    intro e he
    rw [List.mem_singleton] at he
    subst he
    exact ⟨5, 90, rfl, by decide, rfl, by norm_num, by norm_num, by decide⟩
  rw [assignGrades_of_valid store2 teacherT 1 _ ⟨1, "Midterm", none, 1⟩
    ⟨1, "Algebra-1", none, 1⟩ rfl (by decide) rfl rfl rfl hval]
  refine ⟨rfl, ?_, by simp⟩
  simp [bulkUpsertGrades, upsertGrade, toGradeValues, orNull, store2, store1]

/-- C9, amended: on a ledger with at most one row per (studentId, subjectId), after a
successful assignGrades every studentId occurring in the batch has exactly one row for
(studentId, subjectId); its grade is that of the last entry of the batch for that
student and its assignment and comments are those of that entry with the empty string
stored as null; a row of any other (studentId, subjectId) pair is in the ledger after
the call exactly when it was in it before. -/
theorem assignGrades_upsert (st : State) (actor : Actor) (sid : Nat)
    (entries : List GradeEntry) (hkey : GradeKeyUnique st.grades)
    (hok : (assignGrades st actor (some sid) (some entries)).1.status = 201) :
    (∀ s, (∃ e ∈ entries, e.studentId = some s) →
      ∃ pre e post row, entries = pre ++ e :: post ∧ e.studentId = some s ∧
        (∀ x ∈ post, x.studentId ≠ some s) ∧
        rowsFor (assignGrades st actor (some sid) (some entries)).2.grades s sid = [row] ∧
        e.grade = some row.grade ∧ row.assignment = orNull e.assignment ∧
        row.comments = orNull e.comments) ∧
    (∀ row : Grade,
      (row.subjectId ≠ sid ∨ ∀ e ∈ entries, e.studentId ≠ some row.studentId) →
      (row ∈ (assignGrades st actor (some sid) (some entries)).2.grades ↔ row ∈ st.grades)) ∧
    GradeKeyUnique (assignGrades st actor (some sid) (some entries)).2.grades := by
  obtain ⟨subject, cls, hrole, hsid, hsub, hcls, hown, hval⟩ :=
    assignGrades_created st actor sid entries hok
  have hvalid := (validateGrades_none_iff st subject.classId entries).mp hval
  rw [assignGrades_of_valid st actor sid entries subject cls hrole hsid hsub hcls hown hval]
  simp only
  have hunique := bulkUpsertGrades_keyUnique (entries.map (toGradeValues sid)) st.grades
    st.nextGradeId hkey
  refine ⟨?_, ?_, hunique⟩
  · intro s hs
    obtain ⟨pre, e, post, heq, hes, hpost⟩ := exists_last entries s hs
    obtain ⟨_, g, _, _, hg, _, _, _⟩ := hvalid e (by rw [heq]; simp)
    have hcarry := bulkUpsertGrades_last_wins (pre.map (toGradeValues sid))
      (post.map (toGradeValues sid)) st.grades st.nextGradeId (toGradeValues sid e) (by
        intro w hw hk
        obtain ⟨x, hx, rfl⟩ := List.mem_map.mp hw
        obtain ⟨sx, _, hsx, _, _, _, _, _⟩ := hvalid x (by rw [heq]; simp [hx])
        apply hpost x hx
        have := hk.1
        simp only [toGradeValues, hsx, hes, Option.getD_some] at this
        rw [hsx, this])
    have hmap : entries.map (toGradeValues sid) =
        pre.map (toGradeValues sid) ++ toGradeValues sid e :: post.map (toGradeValues sid) := by
      rw [heq, List.map_append, List.map_cons]
    rw [← hmap] at hcarry
    obtain ⟨⟨row, hrow, hk⟩, hall⟩ := hcarry
    have hv := hall row hrow hk
    rw [sameGradeKey_iff] at hk
    have hks : row.studentId = s := by simpa [toGradeValues, hes] using hk.1
    have hkj : row.subjectId = sid := by simpa [toGradeValues] using hk.2
    refine ⟨pre, e, post, row, heq, hes, hpost, ?_, ?_, ?_, ?_⟩
    · have hone := rowsFor_singleton _ row hunique hrow
      rw [hks, hkj] at hone
      exact hone
    · rw [hv.1, hg]
      simp [toGradeValues, hg]
    · rw [hv.2.1]
      rfl
    · rw [hv.2.2]
      rfl
  · intro row hrow
    apply bulkUpsertGrades_other_key
    intro v hv hk
    obtain ⟨x, hx, rfl⟩ := List.mem_map.mp hv
    obtain ⟨sx, _, hsx, _, _, _, _, _⟩ := hvalid x hx
    rcases hrow with h | h
    · exact h (by simpa [toGradeValues] using hk.2)
    · apply h x hx
      have := hk.1
      simp only [toGradeValues, hsx, Option.getD_some] at this
      rw [hsx, this]

theorem validateGrades_batch3 : validateGrades store3 1 batch3 = none := by
  rw [validateGrades_none_iff]
  intro e he
  simp only [batch3, List.mem_cons, List.mem_singleton, List.not_mem_nil, or_false] at he
  rcases he with rfl | rfl | rfl
  · exact ⟨5, 90, rfl, by decide, rfl, by norm_num, by norm_num, by decide⟩
  · exact ⟨6, 80, rfl, by decide, rfl, by norm_num, by norm_num, by decide⟩
  · exact ⟨5, 60, rfl, by decide, rfl, by norm_num, by norm_num, by decide⟩

/-- Witness for C9: `store3` holds one row for (5, 1); after `batch3`, whose first and
last entries are for student 5 under the labels hw1 and hw2, there is exactly one row
for (5, 1) and it carries the last entry. -/
theorem assignGrades_upsert_witness :
    ∃ pre e post row, batch3 = pre ++ e :: post ∧ e.studentId = some 5 ∧
      (∀ x ∈ post, x.studentId ≠ some 5) ∧
      rowsFor (assignGrades store3 teacherT (some 1) (some batch3)).2.grades 5 1 = [row] ∧
      e.grade = some row.grade ∧ row.assignment = orNull e.assignment ∧
      row.comments = orNull e.comments :=
  (assignGrades_upsert store3 teacherT 1 batch3 (by decide)
    (by
      rw [assignGrades_of_valid store3 teacherT 1 batch3 ⟨1, "Midterm", none, 1⟩
        ⟨1, "Algebra-1", none, 1⟩ rfl (by decide) rfl rfl rfl validateGrades_batch3])).1 5
    ⟨⟨some 5, some 90, some "hw1", none⟩, by simp [batch3], rfl⟩

/-- Witness for C4: teacher 2 does not own grade 1 of `store3`; the deleteGrade call of
teacher 2 leaves subjects and grades as they were. -/
theorem only_owner_mutates_witness :
    (deleteGrade store3 teacherT2 1).2.subjects = store3.subjects ∧
    (deleteGrade store3 teacherT2 1).2.grades = store3.grades :=
  (only_owner_mutates store3 teacherT2).2.2.2.2.2 1 (by decide)

/-! ## Theorems: one class per student -/

theorem addStudents_oneClass (st : State) (actor : Actor) (classId : Nat)
    (ids : Option (List Nat)) (h : OneClassPerStudent st) :
    OneClassPerStudent (addStudents st actor classId ids).2 := by
  rcases addStudents_outcome st actor classId ids with ⟨_, heq⟩ | ⟨l, _, _, _, hfree, _, heq⟩
  · rw [heq]
    exact h
  · rw [heq]
    intro e1 h1 e2 h2 hsame
    simp only [List.mem_append, List.mem_map] at h1 h2
    rcases h1 with h1 | ⟨a, ha, rfl⟩ <;> rcases h2 with h2 | ⟨b, hb, rfl⟩
    · exact h e1 h1 e2 h2 hsame
    · exact absurd (hsame ▸ hb) (hfree e1 h1)
    · exact absurd (hsame ▸ ha) (hfree e2 h2)
    · rfl

theorem handle_oneClass (st : State) (actor : Actor) (req : Request)
    (h : OneClassPerStudent st) : OneClassPerStudent (handle st actor req).2 := by
  cases req with
  | addStudents c ids => exact addStudents_oneClass st actor c ids h
  | removeStudent c s =>
    simp only [handle, removeStudent]
    repeat' split
    all_goals first
      | exact h
      | exact fun e1 h1 e2 h2 heq =>
          h e1 (List.mem_of_mem_filter h1) e2 (List.mem_of_mem_filter h2) heq
  | createClass n d =>
    simp only [handle, createClass]
    repeat' split
    all_goals exact h
  | createSubject n d c =>
    simp only [handle, createSubject]
    repeat' split
    all_goals exact h
  | updateSubject i n d =>
    simp only [handle, updateSubject]
    repeat' split
    all_goals exact h
  | deleteSubject i =>
    simp only [handle, deleteSubject]
    repeat' split
    all_goals exact h
  | assignGrades sid g =>
    simp only [handle, assignGrades]
    repeat' split
    all_goals exact h
  | updateGrade i g a c =>
    simp only [handle, updateGrade]
    repeat' split
    all_goals exact h
  | deleteGrade i =>
    simp only [handle, deleteGrade]
    repeat' split
    all_goals exact h

/-- From an empty enrollment store, in every reachable store all the enrollment rows of
one student name the same class. -/
theorem reachable_oneClass (s0 s : State) (h0 : s0.enrollments = [])
    (hr : Reachable s0 s) : OneClassPerStudent s := by
  induction hr with
  | refl =>
    intro e1 h1
    rw [h0] at h1
    cases h1
  | step s actor req _ ih => exact handle_oneClass s actor req ih

/-! ## Theorems: createClass -/

/-- What the route createClass does: it answers 400 and leaves the store unchanged when
the name is missing or the empty string; for any other name, blank or not, a teacher
gets 201 and exactly one class is appended, owned by the caller. -/
theorem createClass_untrimmed (st : State) (actor : Actor) (name description : Option String)
    (hrole : actor.role = Role.teacher) :
    ((name = none ∨ name = some "") →
      (createClass st actor name description).1.status = 400 ∧
      (createClass st actor name description).2 = st) ∧
    (∀ n, name = some n → n ≠ "" →
      (createClass st actor name description).1.status = 201 ∧
      (createClass st actor name description).2.classes =
        st.classes ++ [⟨st.nextClassId, n, description, actor.id⟩]) := by
  constructor
  · rintro (h | h) <;> simp [createClass, hrole, h]
  · intro n hn hne
    simp [createClass, hrole, hn, hne]

/-! ## Theorems: the ledger key is kept -/

theorem keyUnique_filter (gs : List Grade) (q : Grade → Bool) (h : GradeKeyUnique gs) :
    GradeKeyUnique (gs.filter q) := by
  unfold GradeKeyUnique at *
  exact List.Nodup.sublist (List.Sublist.map _ (List.filter_sublist _)) h

theorem keyUnique_patch (gs : List Grade) (id : Nat) (g : ℚ)
    (a c : Option (Option String)) (h : GradeKeyUnique gs) :
    GradeKeyUnique (gs.map (fun r => if r.id == id then r.patch g a c else r)) := by
  unfold GradeKeyUnique at *
  have hmap : List.map (fun r : Grade => (r.studentId, r.subjectId))
      (List.map (fun r => if r.id == id then r.patch g a c else r) gs) =
      List.map (fun r : Grade => (r.studentId, r.subjectId)) gs := by
    rw [List.map_map]
    apply List.map_congr_left
    intro r _
    simp only [Function.comp]
    split <;> rfl
  rw [hmap]
  exact h

theorem handle_keyUnique (st : State) (actor : Actor) (req : Request)
    (h : GradeKeyUnique st.grades) : GradeKeyUnique (handle st actor req).2.grades := by
  cases req with
  | createClass n d =>
    simp only [handle, createClass]
    repeat' split
    all_goals exact h
  | addStudents c ids =>
    simp only [handle]
    rcases addStudents_outcome st actor c ids with ⟨_, heq⟩ | ⟨l, _, _, _, _, _, heq⟩ <;>
      (rw [heq]; exact h)
  | removeStudent c s =>
    simp only [handle, removeStudent]
    repeat' split
    all_goals exact h
  | createSubject n d c =>
    simp only [handle, createSubject]
    repeat' split
    all_goals exact h
  | updateSubject i n d =>
    simp only [handle, updateSubject]
    repeat' split
    all_goals exact h
  | deleteSubject i =>
    simp only [handle, deleteSubject]
    repeat' split
    all_goals first
      | exact h
      | exact keyUnique_filter _ _ h
  | assignGrades sid g =>
    simp only [handle, assignGrades]
    repeat' split
    all_goals first
      | exact h
      | exact bulkUpsertGrades_keyUnique _ _ _ h
  | updateGrade i g a c =>
    simp only [handle, updateGrade]
    repeat' split
    all_goals first
      | exact h
      | exact keyUnique_patch _ _ _ _ _ h
  | deleteGrade i =>
    simp only [handle, deleteGrade]
    repeat' split
    all_goals first
      | exact h
      | exact keyUnique_filter _ _ h

/-- From an empty ledger, every reachable ledger has at most one row per
(studentId, subjectId). -/
theorem reachable_keyUnique (s0 s : State) (h0 : s0.grades = []) (hr : Reachable s0 s) :
    GradeKeyUnique s.grades := by
  induction hr with
  | refl =>
    rw [h0]
    exact List.nodup_nil
  | step s actor req _ ih => exact handle_keyUnique s actor req ih

/-! ## Theorems: createSubject and removeStudent -/

theorem findClass_some (st : State) (c : Nat) (cls : Class) (h : findClass st c = some cls) :
    cls ∈ st.classes ∧ cls.id = c := by
  unfold findClass at h
  exact ⟨List.mem_of_find?_eq_some h, by simpa using List.find?_some h⟩

theorem find_of_unique (l : List Class) (cls : Class)
    (hpk : (l.map (fun c => c.id)).Nodup) (hmem : cls ∈ l) :
    l.find? (fun c => c.id == cls.id) = some cls := by
  induction l with
  | nil => cases hmem
  | cons a rest ih =>
    rw [List.map_cons, List.nodup_cons] at hpk
    rcases List.mem_cons.mp hmem with rfl | hin
    · simp
    · have hne : ¬ a.id = cls.id := by
        intro heq
        apply hpk.1
        rw [heq]
        exact List.mem_map.mpr ⟨cls, hin, rfl⟩
      rw [List.find?_cons_of_neg]
      · exact ih hpk.2 hin
      · simpa using hne

theorem findClass_of_unique (st : State) (cls : Class) (hpk : ClassIdsUnique st)
    (hmem : cls ∈ st.classes) : findClass st cls.id = some cls :=
  find_of_unique st.classes cls hpk hmem

/-- C11: for a teacher, a non-empty name and a classId (not 0), on a class table whose
ids are a primary key: createSubject answers the one 404 response 'Class not found or
access denied' and leaves the store unchanged exactly when no class with that id has
the caller as teacherId, whether the class is missing or owned by someone else;
otherwise it answers 201 and appends exactly one subject, whose classId is the given
class. -/
theorem createSubject_combined_check (st : State) (actor : Actor) (n : String)
    (d : Option String) (c : Nat)
    (hrole : actor.role = Role.teacher) (hn : n ≠ "") (hc : c ≠ 0)
    (hpk : ClassIdsUnique st) :
    ((createSubject st actor (some n) d (some c) =
        (⟨404, "Class not found or access denied", Payload.none⟩, st)) ↔
      ¬ ∃ cls ∈ st.classes, cls.id = c ∧ cls.teacherId = actor.id) ∧
    ((∃ cls ∈ st.classes, cls.id = c ∧ cls.teacherId = actor.id) →
      (createSubject st actor (some n) d (some c)).1.status = 201 ∧
      (createSubject st actor (some n) d (some c)).2.subjects =
        st.subjects ++ [⟨st.nextSubjectId, n, d, c⟩] ∧
      (createSubject st actor (some n) d (some c)).2.classes = st.classes ∧
      (createSubject st actor (some n) d (some c)).2.enrollments = st.enrollments ∧
      (createSubject st actor (some n) d (some c)).2.grades = st.grades) := by
  have hyes : (∃ cls ∈ st.classes, cls.id = c ∧ cls.teacherId = actor.id) →
      createSubject st actor (some n) d (some c) =
        (⟨201, "Subject created successfully", Payload.subject ⟨st.nextSubjectId, n, d, c⟩⟩,
          { st with subjects := st.subjects ++ [⟨st.nextSubjectId, n, d, c⟩],
                    nextSubjectId := st.nextSubjectId + 1 }) := by
    rintro ⟨cls, hmem, hid, hown⟩
    have hfind := findClass_of_unique st cls hpk hmem
    rw [hid] at hfind
    simp [createSubject, hrole, hn, hc, hfind, hown]
  have hno : (¬ ∃ cls ∈ st.classes, cls.id = c ∧ cls.teacherId = actor.id) →
      createSubject st actor (some n) d (some c) =
        (⟨404, "Class not found or access denied", Payload.none⟩, st) := by
    intro h
    cases hfind : findClass st c with
    | none => simp [createSubject, hrole, hn, hc, hfind]
    | some cls =>
      have hm := findClass_some st c cls hfind
      have hne : cls.teacherId ≠ actor.id := fun heq => h ⟨cls, hm.1, hm.2, heq⟩
      simp [createSubject, hrole, hn, hc, hfind, hne]
  constructor
  · constructor
    · intro h404 hex
      rw [hyes hex] at h404
      have := congrArg (fun r => r.1.status) h404
      simp at this
    · exact hno
  · intro hex
    rw [hyes hex]
    exact ⟨rfl, rfl, rfl, rfl, rfl⟩

/-- Witness for C11: in `store1` teacher 1 owns class 1 and creates a subject in it. -/
theorem createSubject_combined_check_witness :
    (createSubject store1 teacherT (some "Midterm") none (some 1)).1.status = 201 ∧
    (createSubject store1 teacherT (some "Midterm") none (some 1)).2.subjects =
      store1.subjects ++ [⟨store1.nextSubjectId, "Midterm", none, 1⟩] ∧
    (createSubject store1 teacherT (some "Midterm") none (some 1)).2.classes = store1.classes ∧
    (createSubject store1 teacherT (some "Midterm") none (some 1)).2.enrollments =
      store1.enrollments ∧
    (createSubject store1 teacherT (some "Midterm") none (some 1)).2.grades = store1.grades :=
  (createSubject_combined_check store1 teacherT "Midterm" none 1 rfl (by decide) (by decide)
    (by decide)).2 ⟨⟨1, "Algebra-1", none, 1⟩, by decide, rfl, rfl⟩

/-- C12: on a class owned by the calling teacher, when a row (studentId, classId)
exists removeStudent answers 200, removes the rows equal to that pair and keeps every
other enrollment row and every other table; when no such row exists it answers 404
'Student not found in this class' and the store is unchanged, wherever else the
student may be enrolled. -/
theorem removeStudent_exact (st : State) (actor : Actor) (classId studentId : Nat)
    (cls : Class) (hrole : actor.role = Role.teacher)
    (hcls : findClass st classId = some cls) (hown : cls.teacherId = actor.id) :
    ((∃ e ∈ st.enrollments, e.studentId = studentId ∧ e.classId = classId) →
      (removeStudent st actor classId studentId).1.status = 200 ∧
      (removeStudent st actor classId studentId).2 =
        { st with enrollments :=
            st.enrollments.filter (fun e => decide (e ≠ ⟨studentId, classId⟩)) } ∧
      (∀ e, e ∈ (removeStudent st actor classId studentId).2.enrollments ↔
        e ∈ st.enrollments ∧ e ≠ ⟨studentId, classId⟩)) ∧
    ((¬ ∃ e ∈ st.enrollments, e.studentId = studentId ∧ e.classId = classId) →
      removeStudent st actor classId studentId =
        (⟨404, "Student not found in this class", Payload.none⟩, st)) := by
  have hfilter : st.enrollments.filter
      (fun e => !(e.classId == classId && e.studentId == studentId)) =
      st.enrollments.filter (fun e => decide (e ≠ ⟨studentId, classId⟩)) := by
    apply List.filter_congr
    intro e _
    cases e with
    | mk s c =>
      by_cases h1 : c = classId <;> by_cases h2 : s = studentId <;> simp [h1, h2]
  constructor
  · rintro ⟨e, he, hs, hc⟩
    have hpos : (st.enrollments.filter
        (fun e => e.classId == classId && e.studentId == studentId)).length ≠ 0 := by
      apply Nat.ne_of_gt
      apply List.length_pos_of_mem (a := e)
      exact List.mem_filter.mpr ⟨he, by simp [hs, hc]⟩
    have hres : removeStudent st actor classId studentId =
        (⟨200, "Student removed from class successfully", Payload.none⟩,
          { st with enrollments :=
              st.enrollments.filter (fun e => decide (e ≠ ⟨studentId, classId⟩)) }) := by
      simp only [removeStudent, hrole, hcls, hown, ne_eq, not_true_eq_false, if_false,
        beq_iff_eq, hpos, hfilter]
    rw [hres]
    refine ⟨rfl, rfl, ?_⟩
    intro x
    simp [List.mem_filter]
  · intro hnone
    have hzero : (st.enrollments.filter
        (fun e => e.classId == classId && e.studentId == studentId)).length = 0 := by
      rw [List.length_eq_zero, List.filter_eq_nil_iff]
      intro e he hhit
      simp only [Bool.and_eq_true, beq_iff_eq] at hhit
      exact hnone ⟨e, he, hhit.2, hhit.1⟩
    have hsame : st.enrollments.filter
        (fun e => !(e.classId == classId && e.studentId == studentId)) = st.enrollments := by
      rw [List.filter_eq_self]
      intro e he
      simp only [Bool.not_eq_true', Bool.and_eq_false_iff, beq_eq_false_iff_ne]
      by_contra hcon
      apply hnone
      refine ⟨e, he, ?_, ?_⟩
      · by_contra h2
        exact hcon (Or.inr h2)
      · by_contra h1
        exact hcon (Or.inl h1)
    simp only [removeStudent, hrole, hcls, hown, ne_eq, not_true_eq_false, if_false,
      beq_iff_eq, hzero, hsame, if_true]

/-- Witness for C12: student 5 is enrolled in class 7 only; removing 5 from class 1,
which teacher 1 owns, answers 404 and changes nothing. -/
theorem removeStudent_exact_witness :
    removeStudent { store1 with enrollments := [⟨5, 7⟩] } teacherT 1 5 =
      (⟨404, "Student not found in this class", Payload.none⟩,
        { store1 with enrollments := [⟨5, 7⟩] }) :=
  (removeStudent_exact { store1 with enrollments := [⟨5, 7⟩] } teacherT 1 5
    ⟨1, "Algebra-1", none, 1⟩ rfl rfl rfl).2 (by decide)

/-! ## Theorems: read routes -/

/-- C13: for a teacher, availableStudents answers with exactly the users whose role is
student and whose id appears in no enrollment row: every returned entry is such a
user, so no teacher, no admin and no enrolled student is returned, and every
unenrolled student is returned. -/
theorem availableStudents_set_difference (st : State) (actor : Actor)
    (hrole : actor.role = Role.teacher) :
    ∃ result, availableStudents st actor = Except.ok result ∧
      ∀ info, info ∈ result ↔
        ∃ u ∈ st.users, userInfo u = info ∧ u.role = Role.student ∧
          ∀ e ∈ st.enrollments, e.studentId ≠ u.id := by
  refine ⟨((st.users.filter (fun u => decide (u.role = Role.student))).map userInfo).filter
    (fun student => !((st.enrollments.map (fun sc => sc.studentId)).contains student.id)),
    by simp only [availableStudents, hrole, ne_eq, not_true_eq_false, if_false], ?_⟩
  intro info
  simp only [List.mem_filter, List.mem_map, decide_eq_true_eq, Bool.not_eq_true',
    List.contains_eq_any_beq, List.any_eq_false, beq_iff_eq, List.mem_map]
  constructor
  · rintro ⟨⟨u, ⟨hu, hr⟩, rfl⟩, hfree⟩
    refine ⟨u, hu, rfl, hr, ?_⟩
    intro e he heq
    exact hfree e.studentId ⟨e, he, rfl⟩ (by simp [userInfo, heq])
  · rintro ⟨u, hu, rfl, hr, hfree⟩
    refine ⟨⟨u, ⟨hu, hr⟩, rfl⟩, ?_⟩
    rintro x ⟨e, he, rfl⟩ heq
    exact hfree e he (by simpa [userInfo] using heq.symm)

/-- Witness for C13: with student 5 enrolled, `store2` has no available student; in
`store1` student 5 is the only one. -/
theorem availableStudents_set_difference_witness :
    ∃ result, availableStudents store1 teacherT = Except.ok result ∧
      ∀ info, info ∈ result ↔
        ∃ u ∈ store1.users, userInfo u = info ∧ u.role = Role.student ∧
          ∀ e ∈ store1.enrollments, e.studentId ≠ u.id :=
  availableStudents_set_difference store1 teacherT rfl

/-- C14: when the target does not exist the answer is the 404 response of the route,
the same for every actor that passes the role gate: the class for getClass and
listSubjectsForClass; the subject for getSubject, updateSubject, deleteSubject,
assignGrades (with a subjectId and an array in the body), listForSubject and
listForSubjectMine; the grade for updateGrade with a grade within [0, 100] and for
deleteGrade. -/
theorem not_found_before_ownership (st : State) (actor : Actor) :
    (∀ c, findClass st c = none →
      getClass st actor c = Except.error ⟨404, "Class not found", Payload.none⟩ ∧
      listSubjectsForClass st actor c = Except.error ⟨404, "Class not found", Payload.none⟩) ∧
    (∀ i, findSubject st i = none →
      getSubject st actor i = Except.error ⟨404, "Subject not found", Payload.none⟩) ∧
    (actor.role = Role.teacher → ∀ i, findSubject st i = none →
      (∀ n d, updateSubject st actor i n d = (⟨404, "Subject not found", Payload.none⟩, st)) ∧
      deleteSubject st actor i = (⟨404, "Subject not found", Payload.none⟩, st) ∧
      (∀ entries, i ≠ 0 → assignGrades st actor (some i) (some entries) =
        (⟨404, "Subject not found", Payload.none⟩, st)) ∧
      listForSubject st actor i = Except.error ⟨404, "Subject not found", Payload.none⟩) ∧
    (actor.role = Role.student → ∀ i, findSubject st i = none →
      listForSubjectMine st actor i =
        Except.error ⟨404, "Subject not found", Payload.none⟩) ∧
    (actor.role = Role.teacher → ∀ i, findGrade st i = none →
      (∀ g a c, 0 ≤ g → g ≤ 100 → updateGrade st actor i (some g) a c =
        (⟨404, "Grade not found", Payload.none⟩, st)) ∧
      deleteGrade st actor i = (⟨404, "Grade not found", Payload.none⟩, st)) := by
  refine ⟨?_, ?_, ?_, ?_, ?_⟩
  · intro c h
    simp [getClass, listSubjectsForClass, h]
  · intro i h
    simp [getSubject, h]
  · intro hrole i h
    refine ⟨?_, ?_, ?_, ?_⟩
    · intro n d
      simp [updateSubject, hrole, h]
    · simp [deleteSubject, hrole, h]
    · intro entries hi
      simp [assignGrades, hrole, hi, h]
    · simp [listForSubject, hrole, h]
  · intro hrole i h
    simp [listForSubjectMine, hrole, h]
  · intro hrole i h
    refine ⟨?_, ?_⟩
    · intro g a c h0 h100
      simp [updateGrade, hrole, h, not_lt.mpr h0, not_lt.mpr h100]
    · simp [deleteGrade, hrole, h]

/-- Witness for C14: `store1` has no subject 9; the owner of nothing, teacher 2, and
teacher 1 get the same 404 from deleteSubject. -/
theorem not_found_before_ownership_witness :
    deleteSubject store1 teacherT2 9 = (⟨404, "Subject not found", Payload.none⟩, store1) ∧
    deleteSubject store1 teacherT 9 = (⟨404, "Subject not found", Payload.none⟩, store1) :=
  ⟨((not_found_before_ownership store1 teacherT2).2.2.1 rfl 9 rfl).2.1,
   ((not_found_before_ownership store1 teacherT).2.2.1 rfl 9 rfl).2.1⟩

/-- C15: for an existing class, when the actor's id is the class's teacherId, or when
the actor's role is student and an enrollment row (actor.id, classId) exists,
listSubjectsForClass answers with the subjects whose classId is that class, in table
order, each by its id, name and description: an entry is returned exactly when a
subject row of the class carries these three values; for every other actor it answers
403. -/
theorem listSubjectsForClass_access (st : State) (actor : Actor) (classId : Nat)
    (cls : Class) (hcls : findClass st classId = some cls) :
    ((actor.id = cls.teacherId ∨
        (actor.role = Role.student ∧
          ∃ e ∈ st.enrollments, e.studentId = actor.id ∧ e.classId = classId)) →
      ∃ infos, listSubjectsForClass st actor classId = Except.ok infos ∧
        infos.map (fun i => (i.id, i.name, i.description)) =
          (st.subjects.filter (fun s => s.classId == classId)).map
            (fun s => (s.id, s.name, s.description)) ∧
        ∀ i n d, SubjectInfo.mk i n d ∈ infos ↔
          ∃ s ∈ st.subjects, s.classId = classId ∧ s.id = i ∧ s.name = n ∧
            s.description = d) ∧
    (¬ (actor.id = cls.teacherId ∨
        (actor.role = Role.student ∧
          ∃ e ∈ st.enrollments, e.studentId = actor.id ∧ e.classId = classId)) →
      listSubjectsForClass st actor classId =
        Except.error ⟨403, "Access denied", Payload.none⟩) := by
  constructor
  · intro hallowed
    have hres : listSubjectsForClass st actor classId =
        Except.ok ((st.subjects.filter (fun s => s.classId == classId)).map subjectInfo) := by
      rcases hallowed with h | ⟨hr, he⟩
      · simp [listSubjectsForClass, hcls, h]
      · have henr := (isEnrolled_iff st actor.id classId).mpr he
        simp [listSubjectsForClass, hcls, hr, henr]
    refine ⟨_, hres, ?_, ?_⟩
    · rw [List.map_map]
      rfl
    · intro i n d
      simp only [List.mem_map, List.mem_filter, beq_iff_eq, subjectInfo, SubjectInfo.mk.injEq]
      constructor
      · rintro ⟨sub, ⟨hmem, hc⟩, h1, h2, h3⟩
        exact ⟨sub, hmem, hc, h1, h2, h3⟩
      · rintro ⟨sub, hmem, hc, h1, h2, h3⟩
        exact ⟨sub, ⟨hmem, hc⟩, h1, h2, h3⟩
  · intro h
    have h1 : ¬ cls.teacherId = actor.id := fun heq => h (Or.inl heq.symm)
    by_cases hr : actor.role = Role.student
    · have henr : isEnrolled st actor.id classId = false := by
        rw [Bool.eq_false_iff]
        intro hen
        exact h (Or.inr ⟨hr, (isEnrolled_iff st actor.id classId).mp hen⟩)
      simp [listSubjectsForClass, hcls, h1, hr, henr]
    · simp [listSubjectsForClass, hcls, h1, hr]

/-- Witness for C15: in `store2` the enrolled student 5 reads the subjects of class 1,
and teacher 2 is refused. -/
theorem listSubjectsForClass_access_witness :
    (∃ infos, listSubjectsForClass store2 studentS 1 = Except.ok infos ∧
      infos.map (fun i => (i.id, i.name, i.description)) =
        (store2.subjects.filter (fun s => s.classId == 1)).map
          (fun s => (s.id, s.name, s.description)) ∧
      ∀ i n d, SubjectInfo.mk i n d ∈ infos ↔
        ∃ s ∈ store2.subjects, s.classId = 1 ∧ s.id = i ∧ s.name = n ∧ s.description = d) ∧
    listSubjectsForClass store2 teacherT2 1 =
      Except.error ⟨403, "Access denied", Payload.none⟩ :=
  ⟨(listSubjectsForClass_access store2 studentS 1 ⟨1, "Algebra-1", none, 1⟩ rfl).1
      (Or.inr ⟨rfl, ⟨5, 1⟩, by decide, rfl, rfl⟩),
   (listSubjectsForClass_access store2 teacherT2 1 ⟨1, "Algebra-1", none, 1⟩ rfl).2
      (by decide)⟩

/-- C16: for a student, listMine answers with the grade rows of the ledger whose
studentId is the caller's id, each once per row and most recent first; no row of
another student is returned and no row of the caller is left out. -/
theorem listMine_self_scoped (st : State) (actor : Actor) (hrole : actor.role = Role.student) :
    ∃ rows, listMine st actor = Except.ok rows ∧
      rows.map (fun r => r.grade) =
        (st.grades.filter (fun g => g.studentId == actor.id)).reverse ∧
      (∀ g, g ∈ rows.map (fun r => r.grade) ↔ g ∈ st.grades ∧ g.studentId = actor.id) := by
  refine ⟨((st.grades.filter (fun g => g.studentId == actor.id)).reverse).map
    (fun g => ⟨g, subjectRef st true g⟩),
    by simp only [listMine, hrole, ne_eq, not_true_eq_false, if_false], ?_, ?_⟩
  · simp [List.map_map, Function.comp_def]
  · intro g
    simp [List.map_map, Function.comp_def, List.mem_filter]

/-- Witness for C16: student 5 reads the one grade row of `store3`. -/
theorem listMine_self_scoped_witness :
    ∃ rows, listMine store3 studentS = Except.ok rows ∧
      rows.map (fun r => r.grade) =
        (store3.grades.filter (fun g => g.studentId == studentS.id)).reverse ∧
      (∀ g, g ∈ rows.map (fun r => r.grade) ↔
        g ∈ store3.grades ∧ g.studentId = studentS.id) :=
  listMine_self_scoped store3 studentS rfl

/-- C17: for a student and an existing subject, listForSubjectMine answers 403 when the
student has no enrollment row in the class of the subject, whatever grades the ledger
holds; when the student is enrolled it answers with exactly the grade rows whose
studentId is the caller's and whose subjectId is the subject's. -/
theorem listForSubjectMine_rechecks (st : State) (actor : Actor) (subjectId : Nat)
    (subject : Subject) (hrole : actor.role = Role.student)
    (hsub : findSubject st subjectId = some subject) :
    ((¬ ∃ e ∈ st.enrollments, e.studentId = actor.id ∧ e.classId = subject.classId) →
      listForSubjectMine st actor subjectId =
        Except.error ⟨403, "Access denied", Payload.none⟩) ∧
    ((∃ e ∈ st.enrollments, e.studentId = actor.id ∧ e.classId = subject.classId) →
      ∃ rows, listForSubjectMine st actor subjectId = Except.ok rows ∧
        rows.map (fun r => r.grade) = (st.grades.filter
          (fun g => g.studentId == actor.id && g.subjectId == subjectId)).reverse ∧
        (∀ g, g ∈ rows.map (fun r => r.grade) ↔
          g ∈ st.grades ∧ g.studentId = actor.id ∧ g.subjectId = subjectId)) := by
  constructor
  · intro h
    have henr : isEnrolled st actor.id subject.classId = false := by
      rw [Bool.eq_false_iff]
      intro hen
      exact h ((isEnrolled_iff st actor.id subject.classId).mp hen)
    simp [listForSubjectMine, hrole, hsub, henr]
  · intro h
    have henr := (isEnrolled_iff st actor.id subject.classId).mpr h
    refine ⟨((st.grades.filter
        (fun g => g.studentId == actor.id && g.subjectId == subjectId)).reverse).map
      (fun g => ⟨g, subjectRef st false g⟩),
      by simp only [listForSubjectMine, hrole, hsub, henr, ne_eq, not_true_eq_false,
        if_false, Bool.not_true, Bool.false_eq_true], ?_, ?_⟩
    · simp [List.map_map, Function.comp_def]
    · intro g
      simp [List.map_map, Function.comp_def, List.mem_filter]

/-- Witness for C17: the ledger holds a grade of student 5 for subject 1, but with the
enrollment rows removed student 5 is refused. -/
theorem listForSubjectMine_rechecks_witness :
    listForSubjectMine { store3 with enrollments := [] } studentS 1 =
      Except.error ⟨403, "Access denied", Payload.none⟩ :=
  (listForSubjectMine_rechecks { store3 with enrollments := [] } studentS 1
    ⟨1, "Midterm", none, 1⟩ rfl rfl).1 (by decide)

/-! ## Theorems: deleteSubject and orphan grades -/

theorem findSubject_some (st : State) (i : Nat) (sub : Subject)
    (h : findSubject st i = some sub) : sub ∈ st.subjects ∧ sub.id = i := by
  unfold findSubject at h
  exact ⟨List.mem_of_find?_eq_some h, by simpa using List.find?_some h⟩

theorem upsertGrade_subjectId (acc : List Grade × Nat) (v : GradeValues) :
    ∀ row ∈ (upsertGrade acc v).1,
      (∃ r ∈ acc.1, r.subjectId = row.subjectId) ∨ row.subjectId = v.subjectId := by
  intro row hrow
  unfold upsertGrade at hrow
  split at hrow
  · obtain ⟨r, hr, rfl⟩ := List.mem_map.mp hrow
    left
    refine ⟨r, hr, ?_⟩
    split <;> rfl
  · rcases List.mem_append.mp hrow with h | h
    · exact Or.inl ⟨row, h, rfl⟩
    · rw [List.mem_singleton] at h
      subst h
      exact Or.inr rfl

theorem bulkUpsertGrades_subjectId (vs : List GradeValues) (gs : List Grade) (next : Nat) :
    ∀ row ∈ (bulkUpsertGrades gs next vs).1,
      (∃ r ∈ gs, r.subjectId = row.subjectId) ∨ ∃ v ∈ vs, row.subjectId = v.subjectId := by
  induction vs generalizing gs next with
  | nil =>
    intro row hrow
    exact Or.inl ⟨row, by simpa [bulkUpsertGrades] using hrow, rfl⟩
  | cons v rest ih =>
    intro row hrow
    rw [bulkUpsertGrades_cons] at hrow
    rcases ih _ _ row hrow with ⟨r, hr, heq⟩ | ⟨w, hw, heq⟩
    · rcases upsertGrade_subjectId (gs, next) v r hr with ⟨r0, hr0, heq0⟩ | hv
      · exact Or.inl ⟨r0, hr0, heq0.trans heq⟩
      · exact Or.inr ⟨v, List.mem_cons_self _ _, heq.symm.trans hv⟩
    · exact Or.inr ⟨w, List.mem_cons_of_mem _ hw, heq⟩

theorem noOrphan_more_subjects (st : State) (subjects : List Subject)
    (h : NoOrphanGrades st) (hsub : ∀ s ∈ st.subjects, ∃ t ∈ subjects, t.id = s.id) :
    NoOrphanGrades { st with subjects := subjects } := by
  intro g hg
  obtain ⟨s, hs, hid⟩ := h g hg
  obtain ⟨t, ht, htid⟩ := hsub s hs
  exact ⟨t, ht, htid.trans hid⟩

theorem createSubject_noOrphan (st : State) (actor : Actor) (n d : Option String)
    (c : Option Nat) (h : NoOrphanGrades st) :
    NoOrphanGrades (createSubject st actor n d c).2 := by
  simp only [createSubject]
  repeat' split
  all_goals first
    | exact h
    | exact noOrphan_more_subjects st _ h
        (fun s hs => ⟨s, List.mem_append_left _ hs, rfl⟩)

theorem updateSubject_noOrphan (st : State) (actor : Actor) (i : Nat) (n : Option String)
    (d : Option (Option String)) (h : NoOrphanGrades st) :
    NoOrphanGrades (updateSubject st actor i n d).2 := by
  simp only [updateSubject]
  repeat' split
  all_goals first
    | exact h
    | skip
  apply noOrphan_more_subjects st _ h
  intro s hs
  refine ⟨_, List.mem_map.mpr ⟨s, hs, rfl⟩, ?_⟩
  split <;> rfl

theorem deleteSubject_noOrphan (st : State) (actor : Actor) (i : Nat)
    (h : NoOrphanGrades st) : NoOrphanGrades (deleteSubject st actor i).2 := by
  simp only [deleteSubject]
  repeat' split
  all_goals first
    | exact h
    | skip
  intro g hg
  simp only [destroySubject, List.mem_filter, bne_iff_ne, ne_eq] at hg ⊢
  obtain ⟨s, hs, hid⟩ := h g hg.1
  exact ⟨s, ⟨hs, by rw [hid]; exact hg.2⟩, hid⟩

theorem assignGrades_noOrphan (st : State) (actor : Actor) (sid : Option Nat)
    (grades : Option (List GradeEntry)) (h : NoOrphanGrades st) :
    NoOrphanGrades (assignGrades st actor sid grades).2 := by
  simp only [assignGrades]
  repeat' split
  all_goals first
    | exact h
    | skip
  rename_i subject hsub _ _ _ _ _ _
  intro g hg
  rcases bulkUpsertGrades_subjectId _ _ _ g hg with ⟨r, hr, heq⟩ | ⟨v, hv, heq⟩
  · obtain ⟨s, hs, hid⟩ := h r hr
    exact ⟨s, hs, hid.trans heq⟩
  · obtain ⟨e, _, rfl⟩ := List.mem_map.mp hv
    have hs := findSubject_some st _ subject hsub
    exact ⟨subject, hs.1, by rw [heq]; exact hs.2⟩

theorem updateGrade_noOrphan (st : State) (actor : Actor) (i : Nat) (g : Option ℚ)
    (a c : Option (Option String)) (h : NoOrphanGrades st) :
    NoOrphanGrades (updateGrade st actor i g a c).2 := by
  simp only [updateGrade]
  repeat' split
  all_goals first
    | exact h
    | skip
  intro r hr
  obtain ⟨r0, hr0, rfl⟩ := List.mem_map.mp hr
  obtain ⟨s, hs, hid⟩ := h r0 hr0
  refine ⟨s, hs, ?_⟩
  rw [hid]
  split <;> rfl

theorem handle_noOrphan (st : State) (actor : Actor) (req : Request)
    (h : NoOrphanGrades st) : NoOrphanGrades (handle st actor req).2 := by
  cases req with
  | createClass n d =>
    simp only [handle, createClass]
    repeat' split
    all_goals exact h
  | addStudents c ids =>
    simp only [handle]
    rcases addStudents_outcome st actor c ids with ⟨_, heq⟩ | ⟨l, _, _, _, _, _, heq⟩ <;>
      (rw [heq]; exact h)
  | removeStudent c s =>
    simp only [handle, removeStudent]
    repeat' split
    all_goals exact h
  | createSubject n d c => exact createSubject_noOrphan st actor n d c h
  | updateSubject i n d => exact updateSubject_noOrphan st actor i n d h
  | deleteSubject i => exact deleteSubject_noOrphan st actor i h
  | assignGrades sid g => exact assignGrades_noOrphan st actor sid g h
  | updateGrade i g a c => exact updateGrade_noOrphan st actor i g a c h
  | deleteGrade i =>
    simp only [handle, deleteGrade]
    repeat' split
    all_goals first
      | exact h
      | exact fun g hg => h g (List.mem_of_mem_filter hg)

/-- C19: after a deleteSubject that answers 200 no subject row has the id and no grade
row has it as subjectId; and from a store without orphan grade rows (an empty ledger in
particular) every store reachable by the modelled requests is without orphan grade
rows. -/
theorem deleteSubject_cascades :
    (∀ st actor id, (deleteSubject st actor id).1.status = 200 →
      findSubject (deleteSubject st actor id).2 id = none ∧
      (∀ s ∈ (deleteSubject st actor id).2.subjects, s.id ≠ id) ∧
      (∀ g ∈ (deleteSubject st actor id).2.grades, g.subjectId ≠ id)) ∧
    (∀ s0 s, NoOrphanGrades s0 → Reachable s0 s → NoOrphanGrades s) := by
  constructor
  · intro st actor id hok
    have hst : (deleteSubject st actor id).2 = destroySubject st id := by
      simp only [deleteSubject] at hok ⊢
      repeat' split
      all_goals first
        | rfl
        | (exfalso; simp_all [teacherRequired, serverError])
    rw [hst]
    have hsubs : ∀ s ∈ (destroySubject st id).subjects, s.id ≠ id := by
      intro s hs
      simp only [destroySubject, List.mem_filter, bne_iff_ne, ne_eq] at hs
      exact hs.2
    refine ⟨?_, hsubs, ?_⟩
    · unfold findSubject
      rw [List.find?_eq_none]
      intro s hs
      simpa using hsubs s hs
    · intro g hg
      simp only [destroySubject, List.mem_filter, bne_iff_ne, ne_eq] at hg
      exact hg.2
  · intro s0 s h0 hr
    induction hr with
    | refl => exact h0
    | step s actor req _ ih => exact handle_noOrphan s actor req ih

/-- Witness for C19: teacher 1 deletes subject 1 of `store3`; the grade row of that
subject is gone with it. -/
theorem deleteSubject_cascades_witness :
    findSubject (deleteSubject store3 teacherT 1).2 1 = none ∧
    (∀ s ∈ (deleteSubject store3 teacherT 1).2.subjects, s.id ≠ 1) ∧
    (∀ g ∈ (deleteSubject store3 teacherT 1).2.grades, g.subjectId ≠ 1) :=
  deleteSubject_cascades.1 store3 teacherT 1 (by decide)

/-! ## Theorems: the order of the checks of updateGrade -/

/-- C20: for a teacher and any gradeId, updateGrade with a grade that is missing,
below 0 or above 100 answers 400 and leaves the store unchanged, whether or not a grade
with that id exists and whoever owns it; with a grade within [0, 100] it answers 404
when no grade has that id, and 403 when the grade exists and its chain ends at another
teacher. -/
theorem updateGrade_check_order (st : State) (actor : Actor) (id : Nat)
    (a c : Option (Option String)) (hrole : actor.role = Role.teacher) :
    (∀ grade, (grade = none ∨ ∃ g, grade = some g ∧ (g < 0 ∨ g > 100)) →
      (updateGrade st actor id grade a c).1.status = 400 ∧
      (updateGrade st actor id grade a c).2.grades = st.grades ∧
      (updateGrade st actor id grade a c).2 = st) ∧
    (∀ g, 0 ≤ g → g ≤ 100 → findGrade st id = none →
      updateGrade st actor id (some g) a c = (⟨404, "Grade not found", Payload.none⟩, st)) ∧
    (∀ g t, 0 ≤ g → g ≤ 100 → gradeOwner st id = some t → t ≠ actor.id →
      updateGrade st actor id (some g) a c = (⟨403, "Access denied", Payload.none⟩, st)) := by
  refine ⟨?_, ?_, ?_⟩
  · rintro grade (h | ⟨g, rfl, hg⟩)
    · simp [updateGrade, hrole, h]
    · simp [updateGrade, hrole, hg]
  · intro g h0 h100 hnone
    simp [updateGrade, hrole, hnone, not_lt.mpr h0, not_lt.mpr h100]
  · intro g t h0 h100 hown hne
    simp only [gradeOwner] at hown
    cases hg : findGrade st id with
    | none => simp [hg] at hown
    | some rec =>
      have hgt : gradeTeacher st rec = some t := by simpa [hg] using hown
      simp [updateGrade, hrole, hg, hgt, hne, not_lt.mpr h0, not_lt.mpr h100]

/-- Witness for C20: the owner of grade 1 of `store3` and a teacher asking for a grade
that does not exist both get 400 for the grade 101. -/
theorem updateGrade_check_order_witness :
    ((updateGrade store3 teacherT 1 (some 101) none none).1.status = 400 ∧
      (updateGrade store3 teacherT 1 (some 101) none none).2.grades = store3.grades ∧
      (updateGrade store3 teacherT 1 (some 101) none none).2 = store3) ∧
    ((updateGrade store3 teacherT2 77 (some 101) none none).1.status = 400 ∧
      (updateGrade store3 teacherT2 77 (some 101) none none).2.grades = store3.grades ∧
      (updateGrade store3 teacherT2 77 (some 101) none none).2 = store3) :=
  ⟨(updateGrade_check_order store3 teacherT 1 none none rfl).1 (some 101)
      (Or.inr ⟨101, rfl, Or.inr (by norm_num)⟩),
   (updateGrade_check_order store3 teacherT2 77 none none rfl).1 (some 101)
      (Or.inr ⟨101, rfl, Or.inr (by norm_num)⟩)⟩

/-! ## Theorems: the scenario -/

/-- C18: from a store without classes, subjects and grades in which `S` is a user
without enrollment row (the counters and the id of `S` not being 0), the four steps of the
scenario by teacher `T` succeed; listMine of `S` then answers with exactly one entry,
whose grade is 87.5; and updateGrade on that grade by another teacher `T2`, with any
grade within [0, 100], answers 403 and leaves the store, so the grade 87.5, as it
was. -/
theorem scenario_end_to_end (st0 : State) (T T2 S : Nat)
    (hT : T2 ≠ T) (hS : S ≠ 0) (huser : ∃ u ∈ st0.users, u.id = S)
    (hclasses : st0.classes = []) (hsubjects : st0.subjects = []) (hgrades : st0.grades = [])
    (hfree : ∀ e ∈ st0.enrollments, e.studentId ≠ S)
    (hc : st0.nextClassId ≠ 0) (hs : st0.nextSubjectId ≠ 0) :
    (scenarioClass st0 T).1.status = 201 ∧
    (scenarioEnroll st0 T S).1.status = 200 ∧
    (scenarioSubject st0 T S).1.status = 201 ∧
    (scenarioGrade st0 T S).1.status = 201 ∧
    (scenarioGrade st0 T S).2.grades = [⟨st0.nextGradeId, S, st0.nextSubjectId, 87.5, none, none⟩] ∧
    (∃ row, listMine (scenarioGrade st0 T S).2 ⟨S, Role.student⟩ = Except.ok [row] ∧
      row.grade.grade = 87.5) ∧
    (∀ g a c, 0 ≤ g → g ≤ 100 →
      updateGrade (scenarioGrade st0 T S).2 ⟨T2, Role.teacher⟩ st0.nextGradeId (some g) a c =
        (⟨403, "Access denied", Payload.none⟩, (scenarioGrade st0 T S).2)) := by
  obtain ⟨users, classes, enrollments, subjects, grades, nc, ns, ng⟩ := st0
  simp only at hclasses hsubjects hgrades hfree hc hs huser
  subst hclasses hsubjects hgrades
  have hfilter : List.filter (fun e : StudentClass => decide (e.studentId ∈ [S])) enrollments
      = [] := by
    rw [List.filter_eq_nil_iff]
    intro e he
    simpa using hfree e he
  have h1 : scenarioClass ⟨users, [], enrollments, [], [], nc, ns, ng⟩ T =
      (⟨201, "Class created successfully", Payload.cls ⟨nc, "Algebra-1", none, T⟩⟩,
        ⟨users, [⟨nc, "Algebra-1", none, T⟩], enrollments, [], [], nc + 1, ns, ng⟩) := by
    simp [scenarioClass, createClass]
  have h2 : scenarioEnroll ⟨users, [], enrollments, [], [], nc, ns, ng⟩ T S =
      (⟨200, "Students added to class successfully", Payload.none⟩,
        ⟨users, [⟨nc, "Algebra-1", none, T⟩], enrollments ++ [⟨S, nc⟩], [], [], nc + 1, ns,
          ng⟩) := by
    have hins : enrollmentsInsertable
        ⟨users, [⟨nc, "Algebra-1", none, T⟩], enrollments, [], [], nc + 1, ns, ng⟩
        [⟨S, nc⟩] = true := by
      obtain ⟨u, hu, huid⟩ := huser
      simp only [enrollmentsInsertable, Bool.and_eq_true, decide_eq_true_eq, List.all_eq_true,
        List.any_eq_true, beq_iff_eq, List.mem_singleton]
      refine ⟨⟨⟨List.nodup_singleton _, ?_⟩, ?_⟩, ?_⟩
      · rintro e rfl hmem
        exact hfree _ hmem rfl
      · rintro e rfl
        exact ⟨u, hu, huid⟩
      · rintro e rfl
        exact ⟨_, rfl, rfl⟩
    simp only [scenarioEnroll, h1, addStudents, findClass, hfilter, bulkCreateEnrollments]
    simp [hins]
  have h3 : scenarioSubject ⟨users, [], enrollments, [], [], nc, ns, ng⟩ T S =
      (⟨201, "Subject created successfully", Payload.subject ⟨ns, "Midterm", none, nc⟩⟩,
        ⟨users, [⟨nc, "Algebra-1", none, T⟩], enrollments ++ [⟨S, nc⟩],
          [⟨ns, "Midterm", none, nc⟩], [], nc + 1, ns + 1, ng⟩) := by
    simp [scenarioSubject, h2, createSubject, findClass, hc]
  have h4 : scenarioGrade ⟨users, [], enrollments, [], [], nc, ns, ng⟩ T S =
      (⟨201, "Grades assigned successfully",
          Payload.gradeEntries [⟨S, ns, 87.5, none, none⟩]⟩,
        ⟨users, [⟨nc, "Algebra-1", none, T⟩], enrollments ++ [⟨S, nc⟩],
          [⟨ns, "Midterm", none, nc⟩], [⟨ng, S, ns, 87.5, none, none⟩], nc + 1, ns + 1,
          ng + 1⟩) := by
    have hval : validateGrades
        ⟨users, [⟨nc, "Algebra-1", none, T⟩], enrollments ++ [⟨S, nc⟩],
          [⟨ns, "Midterm", none, nc⟩], [], nc + 1, ns + 1, ng⟩ nc
        [⟨some S, some 87.5, none, none⟩] = none := by
      rw [validateGrades_none_iff]
      intro e he
      rw [List.mem_singleton] at he
      subst he
      exact ⟨S, 87.5, rfl, hS, rfl, by norm_num, by norm_num, by simp [isEnrolled]⟩
    simp only [scenarioGrade, h3]
    rw [assignGrades_of_valid _ _ ns _ ⟨ns, "Midterm", none, nc⟩ ⟨nc, "Algebra-1", none, T⟩
      rfl hs (by simp [findSubject]) (by simp [findClass]) rfl hval]
    simp [bulkUpsertGrades, upsertGrade, toGradeValues, orNull]
  refine ⟨by rw [h1], by rw [h2], by rw [h3], by rw [h4], by rw [h4], ?_, ?_⟩
  · rw [h4]
    simp [listMine]
  · intro g a c h0 h100
    rw [h4]
    simp [updateGrade, findGrade, gradeTeacher, findSubject, findClass, hT.symm,
      not_lt.mpr h0, not_lt.mpr h100]

/-- Witness for C18: the scenario on `store1` without its class, with teachers 1 and 2
and student 5. -/
theorem scenario_end_to_end_witness :
    (scenarioClass { store1 with classes := [], nextClassId := 1 } 1).1.status = 201 ∧
    (scenarioEnroll { store1 with classes := [], nextClassId := 1 } 1 5).1.status = 200 ∧
    (scenarioSubject { store1 with classes := [], nextClassId := 1 } 1 5).1.status = 201 ∧
    (scenarioGrade { store1 with classes := [], nextClassId := 1 } 1 5).1.status = 201 ∧
    (scenarioGrade { store1 with classes := [], nextClassId := 1 } 1 5).2.grades =
      [⟨1, 5, 1, 87.5, none, none⟩] ∧
    (∃ row, listMine (scenarioGrade { store1 with classes := [], nextClassId := 1 } 1 5).2
        ⟨5, Role.student⟩ = Except.ok [row] ∧ row.grade.grade = 87.5) ∧
    (∀ g a c, 0 ≤ g → g ≤ 100 →
      updateGrade (scenarioGrade { store1 with classes := [], nextClassId := 1 } 1 5).2
          ⟨2, Role.teacher⟩ 1 (some g) a c =
        (⟨403, "Access denied", Payload.none⟩,
          (scenarioGrade { store1 with classes := [], nextClassId := 1 } 1 5).2)) :=
  scenario_end_to_end { store1 with classes := [], nextClassId := 1 } 1 2 5
    (by decide) (by decide) ⟨⟨5, "S", "s@school", Role.student, false⟩, by decide, rfl⟩
    rfl rfl rfl (by decide) (by decide) (by decide)

/-! ## Theorems: the class ids stay a primary key -/

theorem createClass_classTableOk (st : State) (actor : Actor) (n d : Option String)
    (h : ClassTableOk st) : ClassTableOk (createClass st actor n d).2 := by
  simp only [createClass]
  repeat' split
  all_goals first
    | exact h
    | skip
  obtain ⟨hpk, hlt⟩ := h
  constructor
  · unfold ClassIdsUnique at *
    simp only [List.map_append, List.map_cons, List.map_nil]
    rw [List.nodup_append]
    refine ⟨hpk, by simp, ?_⟩
    intro i hi hi2
    obtain ⟨c, hcmem, rfl⟩ := List.mem_map.mp hi
    rw [List.mem_singleton] at hi2
    exact absurd hi2 (Nat.ne_of_lt (hlt c hcmem))
  · intro c hcmem
    simp only [List.mem_append, List.mem_singleton] at hcmem
    rcases hcmem with hcmem | rfl
    · exact Nat.lt_succ_of_lt (hlt c hcmem)
    · exact Nat.lt_succ_self _

theorem handle_classTableOk (st : State) (actor : Actor) (req : Request)
    (h : ClassTableOk st) : ClassTableOk (handle st actor req).2 := by
  cases req with
  | createClass n d => exact createClass_classTableOk st actor n d h
  | addStudents c ids =>
    simp only [handle]
    rcases addStudents_outcome st actor c ids with ⟨_, heq⟩ | ⟨l, _, _, _, _, _, heq⟩ <;>
      (rw [heq]; exact h)
  | removeStudent c s =>
    simp only [handle, removeStudent]
    repeat' split
    all_goals exact h
  | createSubject n d c =>
    simp only [handle, createSubject]
    repeat' split
    all_goals exact h
  | updateSubject i n d =>
    simp only [handle, updateSubject]
    repeat' split
    all_goals exact h
  | deleteSubject i =>
    simp only [handle, deleteSubject]
    repeat' split
    all_goals exact h
  | assignGrades sid g =>
    simp only [handle, assignGrades]
    repeat' split
    all_goals exact h
  | updateGrade i g a c =>
    simp only [handle, updateGrade]
    repeat' split
    all_goals exact h
  | deleteGrade i =>
    simp only [handle, deleteGrade]
    repeat' split
    all_goals exact h

/-- From a store without classes, the class ids of every reachable store are a primary
key. -/
theorem reachable_classIdsUnique (s0 s : State) (h0 : s0.classes = [])
    (hr : Reachable s0 s) : ClassIdsUnique s := by
  have hok : ClassTableOk s := by
    induction hr with
    | refl =>
      constructor
      · unfold ClassIdsUnique
        rw [h0]
        exact List.nodup_nil
      · intro c hc
        rw [h0] at hc
        cases hc
    | step s actor req _ ih => exact handle_classTableOk s actor req ih
  exact hok.1

end Takwin
